import Mathlib

/-!
# Strafe behaviour (`nav2_behaviors/plugins/strafe.cpp`)

A shallow embedding of `Strafe::onRun`, `Strafe::onCycleUpdate` and
`Strafe::isCollisionFree`, followed by the properties established about them.

Modelling conventions.

* `double` values live in an arbitrary linearly ordered field `α` with a floor
  function (`ℚ` for evaluation, `ℝ` for exact square roots and trigonometry).
  Arithmetic is therefore exact: rounding, infinities and NaN are not modelled.
  `std::fabs` and the unqualified `abs` of the source are both the absolute
  value of `α`.  The one exception is the product of line 110, whose value is
  converted to an `int`: it is the field `mul` of the `Libm α` record, so that
  what is proved of the loop bound holds for the product as the machine
  computes it, rounding included.
* `rclcpp::Time` and `rclcpp::Duration` are integer nanosecond counts (`Int`);
  `Duration::seconds()` divides the count by `10^9`.  The counts are unbounded:
  the 64-bit range checks of the library (which throw) are not modelled.
* Library functions (`hypot`, `cos`, `sin`, `tf2::getYaw`) and the
  double-precision product of line 110 are fields of a `Libm α` record passed
  to the code.
* The collaborators reached through the base class (clock, transform lookup,
  local collision checker) are the fields of a `World α` record, one record per
  call of `onRun` or `onCycleUpdate`.
* Everything the code does to the outside (pose lookup, `stopRobot`, velocity
  publish, feedback publish, collision query) is appended to a list of
  `Effect`s, in program order.
-/

namespace nav2_behaviors

/-! ## Message and result types -/

/-- Modelled from the spec: the `Status` enumeration of the behaviour base class
(declared in `timed_behavior.hpp`, which is not among the sources); the spec
gives the status as one of SUCCEEDED, FAILED, RUNNING. -/
inductive Status where
  | SUCCEEDED
  | FAILED
  | RUNNING
  deriving DecidableEq, Repr

/-- Modelled from the spec: the error codes of the `Strafe` action result (the
action definition is not among the sources); the spec enumerates the failure
reasons NONE, INVALID_INPUT, TF_ERROR, COLLISION_AHEAD, TIMEOUT. -/
inductive StrafeActionResult where
  | NONE
  | INVALID_INPUT
  | TF_ERROR
  | COLLISION_AHEAD
  | TIMEOUT
  deriving DecidableEq, Repr

/-- The pair returned by `onRun` and `onCycleUpdate`. -/
structure ResultStatus where
  status : Status
  error_code : StrafeActionResult
  deriving DecidableEq, Repr

/-- A `geometry_msgs` triple (`Point` or `Vector3`). -/
structure Vector3 (α : Type) where
  x : α
  y : α
  z : α
  deriving DecidableEq, Repr

/-- A `geometry_msgs::msg::Quaternion`. -/
structure QuaternionMsg (α : Type) where
  x : α
  y : α
  z : α
  w : α
  deriving DecidableEq, Repr

/-- A `geometry_msgs::msg::Pose`. -/
structure Pose (α : Type) where
  position : Vector3 α
  orientation : QuaternionMsg α
  deriving DecidableEq, Repr

/-- A `geometry_msgs::msg::PoseStamped` (header reduced to its time stamp). -/
structure PoseStamped (α : Type) where
  stamp : Int
  pose : Pose α
  deriving DecidableEq, Repr

/-- A `geometry_msgs::msg::Pose2D`. -/
structure Pose2D (α : Type) where
  x : α
  y : α
  theta : α
  deriving DecidableEq, Repr

/-- A `geometry_msgs::msg::Twist`. -/
structure Twist (α : Type) where
  linear : Vector3 α
  angular : Vector3 α
  deriving DecidableEq, Repr

/-- A `geometry_msgs::msg::TwistStamped` (header reduced to its time stamp). -/
structure TwistStamped (α : Type) where
  stamp : Int
  twist : Twist α
  deriving DecidableEq, Repr

/-- The goal of the `Strafe` action as `onRun` reads it: `target`, `speed` and
`time_allowance` (nanoseconds). -/
structure Goal (α : Type) where
  target : Vector3 α
  speed : α
  time_allowance : Int
  deriving DecidableEq, Repr

/-! ## Collaborators -/

/-- The library functions the code calls, and `mul`, the double-precision
product `cycle_frequency_ * simulate_ahead_time_` of line 110 (the product as
the machine computes it; its result is converted to an `int`). -/
structure Libm (α : Type) where
  hypot : α → α → α
  cos : α → α
  sin : α → α
  getYaw : QuaternionMsg α → α
  mul : α → α → α

/-- The parameters fixed at configuration: `cycle_frequency_` and
`simulate_ahead_time_`. -/
structure Config (α : Type) where
  cycle_frequency_ : α
  simulate_ahead_time_ : α

/-- What the collaborators answer during one call.
`now` is the reading of `clock_->now()` at the top of the call, `stamp_now` the
later reading used for the header of the velocity command.
`getCurrentPose` receives the previous content of the output parameter and
returns the success flag with the content written to it.
`isCollisionFree pose fetch_data` is the local collision checker. -/
structure World (α : Type) where
  now : Int
  stamp_now : Int
  getCurrentPose : PoseStamped α → Bool × PoseStamped α
  isCollisionFree : Pose2D α → Bool → Bool

/-- The observable actions of a call, in program order. -/
inductive Effect (α : Type) where
  | getCurrentPose
  | stopRobot
  | publishVel (cmd_vel : TwistStamped α)
  | publishFeedback (distance_traveled : α)
  | collisionQuery (pose2d : Pose2D α) (fetch_data : Bool)
  deriving DecidableEq, Repr

/-! ## Behaviour state -/

/-- The member variables of `Strafe` that the three functions read or write;
`feedback_distance_traveled` is `feedback_->distance_traveled`. -/
structure Strafe (α : Type) where
  command_x_ : α
  command_speed_ : α
  command_time_allowance_ : Int
  end_time_ : Int
  initial_pose_ : PoseStamped α
  feedback_distance_traveled : α
  deriving DecidableEq, Repr

/-- The result of a call: the returned pair, the members afterwards and the
actions performed. -/
structure Outcome (α : Type) where
  result : ResultStatus
  state : Strafe α
  effects : List (Effect α)

variable {α : Type} [LinearOrderedField α] [FloorRing α]

/-- A default-constructed `PoseStamped`: zero position, identity orientation. -/
def PoseStamped.init : PoseStamped α :=
  { stamp := 0, pose := { position := ⟨0, 0, 0⟩, orientation := ⟨0, 0, 0, 1⟩ } }

/-- A value-initialised `TwistStamped`. -/
def TwistStamped.init : TwistStamped α :=
  { stamp := 0, twist := { linear := ⟨0, 0, 0⟩, angular := ⟨0, 0, 0⟩ } }

/-- The method `rclcpp::Duration::seconds()`. -/
def seconds (nanoseconds : Int) : α := (nanoseconds : α) / 1000000000

/-- The conversion `static_cast<int>` of a `double` to a 32-bit `int`:
truncation toward zero when the truncated value lies between `INT_MIN` and
`INT_MAX`.  Outside that range the conversion is undefined in C++; the value
taken here is the one the conversion instruction of x86-64 yields, `INT_MIN`. -/
def static_cast_int (v : α) : Int :=
  if -2147483649 < v ∧ v < 2147483648 then (if 0 ≤ v then ⌊v⌋ else ⌈v⌉) else -2147483648

namespace Strafe

/-! ## The three functions -/

/-- The method `Strafe::onRun` (strafe.cpp lines 20-45). -/
def onRun (self : Strafe α) (w : World α) (command : Goal α) : Outcome α :=
  if command.target.x ≠ 0 ∨ command.target.z ≠ 0 then
    { result := ⟨Status.FAILED, StrafeActionResult.INVALID_INPUT⟩, state := self, effects := [] }
  else
    let self1 : Strafe α :=
      { self with
        command_x_ := command.target.y
        command_speed_ := command.speed
        command_time_allowance_ := command.time_allowance }
    let self2 : Strafe α :=
      { self1 with end_time_ := w.now + self1.command_time_allowance_ }
    let looked := w.getCurrentPose self2.initial_pose_
    let self3 : Strafe α := { self2 with initial_pose_ := looked.2 }
    if !looked.1 then
      { result := ⟨Status.FAILED, StrafeActionResult.TF_ERROR⟩, state := self3,
        effects := [Effect.getCurrentPose] }
    else
      { result := ⟨Status.SUCCEEDED, StrafeActionResult.NONE⟩, state := self3,
        effects := [Effect.getCurrentPose] }

/-- The value of `sim_position_change` computed at line 115 for the given
`cycle_count`. -/
def sim_position_change (cfg : Config α) (cmd_vel : TwistStamped α) (cycle_count : Nat) : α :=
  cmd_vel.twist.linear.y * ((cycle_count : α) / cfg.cycle_frequency_)

/-- The pose written to `pose2d` at lines 116-117 (its heading is the one
copied from `init_pose`, which the loop never changes). -/
def sim_pose (m : Libm α) (init_pose : Pose2D α) (change : α) : Pose2D α :=
  { x := init_pose.x + change * m.cos init_pose.theta
    y := init_pose.y + change * m.sin init_pose.theta
    theta := init_pose.theta }

/-- The loop of `Strafe::isCollisionFree` (lines 114-128) with `remaining`
passes left, entered with the given `cycle_count` and `fetch_data`.
Returns the value `isCollisionFree` returns and the collision queries made. -/
def simulate (cfg : Config α) (m : Libm α) (w : World α) (cmd_vel : TwistStamped α)
    (init_pose : Pose2D α) (diff_dist : α) :
    Nat → Nat → Bool → Bool × List (Effect α)
  | 0, _, _ => (true, [])
  | remaining + 1, cycle_count, fetch_data =>
    let change : α := sim_position_change cfg cmd_vel cycle_count
    let pose2d : Pose2D α := sim_pose m init_pose change
    if diff_dist - |change| ≤ 0 then
      (true, [])
    else if !w.isCollisionFree pose2d fetch_data then
      (false, [Effect.collisionQuery pose2d fetch_data])
    else
      let rest := simulate cfg m w cmd_vel init_pose diff_dist remaining (cycle_count + 1) false
      (rest.1, Effect.collisionQuery pose2d fetch_data :: rest.2)

/-- The constant `max_cycle_count` of `Strafe::isCollisionFree` (line 110). -/
def max_cycle_count (cfg : Config α) (m : Libm α) : Int :=
  static_cast_int (m.mul cfg.cycle_frequency_ cfg.simulate_ahead_time_)

/-- The method `Strafe::isCollisionFree` (lines 101-130).  The loop
`while (cycle_count < max_cycle_count)` starts at `cycle_count = 0` and
increments once per pass, so it makes at most `max_cycle_count` passes (none
when that is not positive). -/
def isCollisionFree (cfg : Config α) (m : Libm α) (self : Strafe α) (w : World α)
    (distance : α) (cmd_vel : TwistStamped α) (pose2d : Pose2D α) :
    Bool × List (Effect α) :=
  let diff_dist : α := |self.command_x_| - distance
  simulate cfg m w cmd_vel pose2d diff_dist (max_cycle_count cfg m).toNat 0 true

/-- The velocity command built at lines 79-83. -/
def candidate (self : Strafe α) (w : World α) : TwistStamped α :=
  let c0 : TwistStamped α := TwistStamped.init
  let c1 : TwistStamped α := { c0 with stamp := w.stamp_now }
  let c2 : TwistStamped α :=
    { c1 with twist := { c1.twist with linear := { c1.twist.linear with x := 0 } } }
  let c3 : TwistStamped α :=
    { c2 with twist := { c2.twist with angular := { c2.twist.angular with z := 0 } } }
  { c3 with twist := { c3.twist with linear := { c3.twist.linear with y := self.command_speed_ } } }

/-- The value of `distance` computed at lines 67-69 from the recorded initial
pose and the pose just looked up. -/
def distance (m : Libm α) (self : Strafe α) (current_pose : PoseStamped α) : α :=
  let diff_x : α := self.initial_pose_.pose.position.x - current_pose.pose.position.x
  let diff_y : α := self.initial_pose_.pose.position.y - current_pose.pose.position.y
  m.hypot diff_x diff_y

/-- The planar pose built at lines 85-88 from the pose just looked up. -/
def pose2d (m : Libm α) (current_pose : PoseStamped α) : Pose2D α :=
  { x := current_pose.pose.position.x
    y := current_pose.pose.position.y
    theta := m.getYaw current_pose.pose.orientation }

/-- The method `Strafe::onCycleUpdate` (lines 47-99). -/
def onCycleUpdate (cfg : Config α) (m : Libm α) (self : Strafe α) (w : World α) :
    Outcome α :=
  let time_remaining : Int := self.end_time_ - w.now
  if (seconds time_remaining : α) < 0 ∧ (seconds self.command_time_allowance_ : α) > 0 then
    { result := ⟨Status.FAILED, StrafeActionResult.NONE⟩, state := self,
      effects := [Effect.stopRobot] }
  else
    let looked := w.getCurrentPose PoseStamped.init
    if !looked.1 then
      { result := ⟨Status.FAILED, StrafeActionResult.TF_ERROR⟩, state := self,
        effects := [Effect.getCurrentPose] }
    else
      let current_pose := looked.2
      let dist : α := distance m self current_pose
      let self1 : Strafe α := { self with feedback_distance_traveled := dist }
      if dist ≥ |self1.command_x_| then
        { result := ⟨Status.SUCCEEDED, StrafeActionResult.NONE⟩, state := self1,
          effects := [Effect.getCurrentPose, Effect.publishFeedback dist, Effect.stopRobot] }
      else
        let cmd_vel := candidate self1 w
        let sim := isCollisionFree cfg m self1 w dist cmd_vel (pose2d m current_pose)
        if !sim.1 then
          { result := ⟨Status.FAILED, StrafeActionResult.COLLISION_AHEAD⟩, state := self1,
            effects := [Effect.getCurrentPose, Effect.publishFeedback dist] ++ sim.2
              ++ [Effect.stopRobot] }
        else
          { result := ⟨Status.RUNNING, StrafeActionResult.NONE⟩, state := self1,
            effects := [Effect.getCurrentPose, Effect.publishFeedback dist] ++ sim.2
              ++ [Effect.publishVel cmd_vel] }

/-- The members after the first `k` calls of `onCycleUpdate`, the `i`-th call
being answered by `ws i`. -/
def stateAfter (cfg : Config α) (m : Libm α) (self : Strafe α) (ws : Nat → World α) :
    Nat → Strafe α
  | 0 => self
  | k + 1 => (onCycleUpdate cfg m (stateAfter cfg m self ws k) (ws k)).state

/-- The content of `current_pose` after the lookup of lines 58-61. -/
def current_pose (w : World α) : PoseStamped α := (w.getCurrentPose PoseStamped.init).2

/-- The value returned by the lookup of lines 58-61. -/
def poseAvailable (w : World α) : Bool := (w.getCurrentPose PoseStamped.init).1

/-- The call of `isCollisionFree` made at line 90, with the arguments
`onCycleUpdate` passes to it. -/
def lookahead (cfg : Config α) (m : Libm α) (self : Strafe α) (w : World α) :
    Bool × List (Effect α) :=
  let dist : α := distance m self (current_pose w)
  let self1 : Strafe α := { self with feedback_distance_traveled := dist }
  isCollisionFree cfg m self1 w dist (candidate self1 w) (pose2d m (current_pose w))

end Strafe

/-! ## Vocabulary of the properties -/

/-- A velocity output: the halt issued by `stopRobot` or a published command. -/
def Effect.isVelocityOutput : Effect α → Bool
  | Effect.stopRobot => true
  | Effect.publishVel _ => true
  | _ => false

/-- A published velocity command (not a halt). -/
def Effect.isPublishVel : Effect α → Bool
  | Effect.publishVel _ => true
  | _ => false

/-- A published feedback sample. -/
def Effect.isFeedback : Effect α → Bool
  | Effect.publishFeedback _ => true
  | _ => false

/-- A query of the local collision checker. -/
def Effect.isCollisionQuery : Effect α → Bool
  | Effect.collisionQuery _ _ => true
  | _ => false

/-- The value `d` is the planar Euclidean norm of `(a, b)`: the non-negative
root of `a² + b²`. -/
def IsEuclideanNorm (d a b : α) : Prop := 0 ≤ d ∧ d * d = a * a + b * b

/-- The timeout test of `onCycleUpdate` (line 50) on the integer time stamps:
the clock is past `end_time_` and the time allowance is positive. -/
def timedOut (self : Strafe α) (w : World α) : Prop :=
  self.end_time_ < w.now ∧ 0 < self.command_time_allowance_

instance (self : Strafe α) (w : World α) : Decidable (timedOut self w) := by
  unfold timedOut; infer_instance

/-! ## Concrete data for evaluation over `ℚ` -/

/-- A rational stand-in for the library functions, exact at the arguments used
in the concrete runs below: `hypot` is one Heron step from the larger
magnitude (exact when one argument is zero), `cos` and `sin` are Taylor
polynomials (exact at `0`), `getYaw` is the tangent of the yaw (exact at the
identity orientation) and `mul` is the exact product. -/
def ratLibm : Libm ℚ :=
  { hypot := fun a b => (max |a| |b| + (a * a + b * b) / max |a| |b|) / 2
    cos := fun t => 1 - t * t / 2
    sin := fun t => t - t * t * t / 6
    getYaw := fun q => 2 * (q.w * q.z + q.x * q.y) / (1 - 2 * (q.y * q.y + q.z * q.z))
    mul := fun a b => a * b }

/-- A control frequency of 10 Hz and a look-ahead of 2 s. -/
def demoConfig : Config ℚ := { cycle_frequency_ := 10, simulate_ahead_time_ := 2 }

/-- The command of the end-to-end scenarios: 2.0 m lateral, 0.5 m/s, 10 s. -/
def demoGoal : Goal α :=
  { target := ⟨0, 2, 0⟩, speed := 1 / 2, time_allowance := 10000000000 }

/-- A pose at `(x, y)` with identity orientation. -/
def poseAt (x y : ℚ) : PoseStamped ℚ :=
  { stamp := 0, pose := { position := ⟨x, y, 0⟩, orientation := ⟨0, 0, 0, 1⟩ } }

/-- Members before any command has been received. -/
def idle : Strafe ℚ :=
  { command_x_ := 0, command_speed_ := 0, command_time_allowance_ := 0, end_time_ := 0,
    initial_pose_ := poseAt 0 0, feedback_distance_traveled := 0 }

/-- A world in which the transform lookup succeeds with `pose` and the
collision checker answers `free`. -/
def worldWith (now : Int) (pose : PoseStamped ℚ) (free : Pose2D ℚ → Bool → Bool) : World ℚ :=
  { now := now, stamp_now := now, getCurrentPose := fun _ => (true, pose),
    isCollisionFree := free }

/-- A world in which the transform lookup fails, leaving the output parameter
as it was. -/
def worldNoPose (now : Int) : World ℚ :=
  { now := now, stamp_now := now, getCurrentPose := fun out => (false, out),
    isCollisionFree := fun _ _ => true }

/-- The members after `demoGoal` has been accepted at time `0` at the origin. -/
def started : Strafe ℚ :=
  (Strafe.onRun idle (worldWith 0 (poseAt 0 0) (fun _ _ => true)) demoGoal).state

/-- A collision checker that reports not-free exactly at the pose `q`. -/
def blockedAt (q : Pose2D ℚ) : Pose2D ℚ → Bool → Bool := fun p _ => decide (p ≠ q)

/-- The world of the `k`-th step of the end-to-end scenario at 10 Hz: the clock
is `k / 10` s after the start, the robot has moved `k * 0.5 / 10` m along the
y axis and the collision checker answers free. -/
def lateralWorld (k : Nat) : World ℚ :=
  worldWith ((k : Int) * 100000000) (poseAt 0 ((k : ℚ) * (1 / 2) / 10)) (fun _ _ => true)

/-- A command with zero lateral distance. -/
def zeroGoal : Goal ℚ :=
  { target := ⟨0, 0, 0⟩, speed := 1 / 2, time_allowance := 10000000000 }

/-- The members after `zeroGoal` has been accepted at time `0` at the origin. -/
def startedZero : Strafe ℚ :=
  (Strafe.onRun idle (worldWith 0 (poseAt 0 0) (fun _ _ => true)) zeroGoal).state

/-- The third pose simulated by the first step of the end-to-end scenario
(pass 2 of the loop, 0.2 s ahead). -/
def thirdPose : Pose2D ℚ :=
  Strafe.sim_pose ratLibm (Strafe.pose2d ratLibm (poseAt 0 0))
    (Strafe.sim_position_change demoConfig (Strafe.candidate started
      (worldWith 0 (poseAt 0 0) (fun _ _ => true))) 2)

/-- A collision query that asks for a fresh snapshot (`fetch_data = true`). -/
def Effect.isFreshQuery : Effect α → Bool
  | Effect.collisionQuery _ fetch_data => fetch_data
  | _ => false

/-- A collision query that reuses the snapshot (`fetch_data = false`). -/
def Effect.isCachedQuery : Effect α → Bool
  | Effect.collisionQuery _ fetch_data => !fetch_data
  | _ => false

/-- A command whose lateral distance is positive and whose speed is negative. -/
def reversedGoal : Goal ℚ :=
  { target := ⟨0, 2, 0⟩, speed := -(1 / 2), time_allowance := 10000000000 }

/-- The members after `reversedGoal` has been accepted at time `0` at the
origin. -/
def startedReversed : Strafe ℚ :=
  (Strafe.onRun idle (worldWith 0 (poseAt 0 0) (fun _ _ => true)) reversedGoal).state

/-- A run in which the transform lookup fails at step 0 and succeeds from
step 1 on, the robot standing at the origin. -/
def recoveringWorld (k : Nat) : World ℚ :=
  if k = 0 then worldNoPose 0
  else worldWith ((k : Int) * 100000000) (poseAt 0 0) (fun _ _ => true)

/-- A run in which the robot is 1 m from its initial pose at step 0 and 0.5 m
from it at every later step. -/
def retreatWorld (k : Nat) : World ℚ :=
  if k = 0 then worldWith 0 (poseAt 0 1) (fun _ _ => true)
  else worldWith ((k : Int) * 100000000) (poseAt 0 (1 / 2)) (fun _ _ => true)

/-- A control frequency of 10 Hz and a look-ahead of 0.26 s. -/
def shortConfig : Config ℚ := { cycle_frequency_ := 10, simulate_ahead_time_ := 26 / 100 }

/-- A collision checker that reports not-free everywhere. -/
def neverFree : Pose2D ℚ → Bool → Bool := fun _ _ => false

/-- A pose at `(0, 1/2)` turned about the vertical axis (orientation
quaternion `(0, 0, 3/5, 4/5)`). -/
def poseTurned : PoseStamped ℚ :=
  { stamp := 0,
    pose := { position := ⟨0, 1 / 2, 0⟩, orientation := ⟨0, 0, 3 / 5, 4 / 5⟩ } }

/-! ## Basic facts about the embedding -/

omit [FloorRing α] in
theorem seconds_neg_iff (d : Int) : (seconds d : α) < 0 ↔ d < 0 := by
  unfold seconds
  rw [div_lt_iff₀ (by norm_num : (0 : α) < 1000000000), zero_mul]
  exact Int.cast_lt_zero

omit [FloorRing α] in
theorem seconds_pos_iff (d : Int) : (seconds d : α) > 0 ↔ 0 < d := by
  unfold seconds
  rw [gt_iff_lt, lt_div_iff₀ (by norm_num : (0 : α) < 1000000000), zero_mul]
  exact Int.cast_pos

omit [FloorRing α] in
/-- The test of line 50 is the comparison of the integer time stamps. -/
theorem timeout_test_iff (self : Strafe α) (w : World α) :
    ((seconds (self.end_time_ - w.now) : α) < 0 ∧
      (seconds self.command_time_allowance_ : α) > 0) ↔ timedOut self w := by
  rw [seconds_neg_iff, seconds_pos_iff, timedOut]
  constructor
  · rintro ⟨h1, h2⟩
    exact ⟨by omega, h2⟩
  · rintro ⟨h1, h2⟩
    exact ⟨by omega, h2⟩

namespace Strafe

/-- Timeout branch of `onCycleUpdate` (lines 50-56). -/
theorem onCycleUpdate_timeout (cfg : Config α) (m : Libm α) (self : Strafe α) (w : World α)
    (h : timedOut self w) :
    onCycleUpdate cfg m self w =
      { result := ⟨Status.FAILED, StrafeActionResult.NONE⟩, state := self,
        effects := [Effect.stopRobot] } := by
  unfold onCycleUpdate
  simp only [timeout_test_iff, h, if_true]

/-- Lookup-failure branch of `onCycleUpdate` (lines 59-65). -/
theorem onCycleUpdate_no_pose (cfg : Config α) (m : Libm α) (self : Strafe α) (w : World α)
    (h : ¬ timedOut self w) (hp : poseAvailable w = false) :
    onCycleUpdate cfg m self w =
      { result := ⟨Status.FAILED, StrafeActionResult.TF_ERROR⟩, state := self,
        effects := [Effect.getCurrentPose] } := by
  unfold poseAvailable at hp
  unfold onCycleUpdate
  simp only [timeout_test_iff, h, if_false, hp, Bool.not_false, if_true]

/-- Goal-reached branch of `onCycleUpdate` (lines 74-77). -/
theorem onCycleUpdate_reached (cfg : Config α) (m : Libm α) (self : Strafe α) (w : World α)
    (h : ¬ timedOut self w) (hp : poseAvailable w = true)
    (hd : |self.command_x_| ≤ distance m self (current_pose w)) :
    onCycleUpdate cfg m self w =
      { result := ⟨Status.SUCCEEDED, StrafeActionResult.NONE⟩,
        state := { self with feedback_distance_traveled := distance m self (current_pose w) },
        effects := [Effect.getCurrentPose,
          Effect.publishFeedback (distance m self (current_pose w)), Effect.stopRobot] } := by
  unfold poseAvailable at hp
  unfold current_pose at hd
  unfold onCycleUpdate
  simp only [timeout_test_iff, h, if_false, hp, Bool.not_true, ge_iff_le, hd, if_true]
  simp [current_pose]

/-- Collision branch of `onCycleUpdate` (lines 90-94). -/
theorem onCycleUpdate_collision (cfg : Config α) (m : Libm α) (self : Strafe α) (w : World α)
    (h : ¬ timedOut self w) (hp : poseAvailable w = true)
    (hd : distance m self (current_pose w) < |self.command_x_|)
    (hs : (lookahead cfg m self w).1 = false) :
    onCycleUpdate cfg m self w =
      { result := ⟨Status.FAILED, StrafeActionResult.COLLISION_AHEAD⟩,
        state := { self with feedback_distance_traveled := distance m self (current_pose w) },
        effects := [Effect.getCurrentPose,
            Effect.publishFeedback (distance m self (current_pose w))]
          ++ (lookahead cfg m self w).2 ++ [Effect.stopRobot] } := by
  unfold poseAvailable at hp
  unfold current_pose at hd
  unfold lookahead current_pose at hs
  unfold onCycleUpdate
  simp only [timeout_test_iff, h, if_false, hp, Bool.not_true, ge_iff_le, not_le.mpr hd, hs]
  simp [lookahead, current_pose]

/-- Running branch of `onCycleUpdate` (lines 96-98). -/
theorem onCycleUpdate_running (cfg : Config α) (m : Libm α) (self : Strafe α) (w : World α)
    (h : ¬ timedOut self w) (hp : poseAvailable w = true)
    (hd : distance m self (current_pose w) < |self.command_x_|)
    (hs : (lookahead cfg m self w).1 = true) :
    onCycleUpdate cfg m self w =
      { result := ⟨Status.RUNNING, StrafeActionResult.NONE⟩,
        state := { self with feedback_distance_traveled := distance m self (current_pose w) },
        effects := [Effect.getCurrentPose,
            Effect.publishFeedback (distance m self (current_pose w))]
          ++ (lookahead cfg m self w).2
          ++ [Effect.publishVel
            (candidate
              { self with feedback_distance_traveled := distance m self (current_pose w) }
              w)] } := by
  unfold poseAvailable at hp
  unfold current_pose at hd
  unfold lookahead current_pose at hs
  unfold onCycleUpdate
  simp only [timeout_test_iff, h, if_false, hp, Bool.not_true, ge_iff_le, not_le.mpr hd, hs]
  simp [lookahead, current_pose]

omit [FloorRing α] in
/-- The loop of `isCollisionFree` does nothing but query the collision checker. -/
theorem simulate_effects (cfg : Config α) (m : Libm α) (w : World α) (cmd_vel : TwistStamped α)
    (init_pose : Pose2D α) (diff_dist : α) (remaining : Nat) :
    ∀ (cycle_count : Nat) (fetch_data : Bool),
      ∀ e ∈ (simulate cfg m w cmd_vel init_pose diff_dist remaining cycle_count fetch_data).2,
        e.isCollisionQuery = true := by
  induction remaining with
  | zero => intro c f e he; simp [simulate] at he
  | succ n ih =>
    intro c f e he
    unfold simulate at he
    by_cases h1 : diff_dist - |sim_position_change cfg cmd_vel c| ≤ 0
    · simp [h1] at he
    · by_cases h2 : w.isCollisionFree (sim_pose m init_pose (sim_position_change cfg cmd_vel c)) f
          = true
      · simp only [h1, if_false, h2, Bool.not_true] at he
        rcases List.mem_cons.mp he with he | he
        · rw [he]; rfl
        · exact ih _ _ e he
      · rw [Bool.not_eq_true] at h2
        simp only [h1, if_false, h2, Bool.not_false, if_true] at he
        rw [List.mem_singleton.mp he]; rfl

/-- The look-ahead of a step does nothing but query the collision checker. -/
theorem lookahead_effects (cfg : Config α) (m : Libm α) (self : Strafe α) (w : World α) :
    ∀ e ∈ (lookahead cfg m self w).2, e.isCollisionQuery = true := by
  unfold lookahead isCollisionFree
  exact simulate_effects _ _ _ _ _ _ _ _ _

/-- The five ways through `onCycleUpdate`, with the outcome of each. -/
theorem onCycleUpdate_cases (cfg : Config α) (m : Libm α) (self : Strafe α) (w : World α) :
    (timedOut self w ∧
      onCycleUpdate cfg m self w =
        { result := ⟨Status.FAILED, StrafeActionResult.NONE⟩, state := self,
          effects := [Effect.stopRobot] }) ∨
    (¬ timedOut self w ∧ poseAvailable w = false ∧
      onCycleUpdate cfg m self w =
        { result := ⟨Status.FAILED, StrafeActionResult.TF_ERROR⟩, state := self,
          effects := [Effect.getCurrentPose] }) ∨
    (¬ timedOut self w ∧ poseAvailable w = true ∧
      |self.command_x_| ≤ distance m self (current_pose w) ∧
      onCycleUpdate cfg m self w =
        { result := ⟨Status.SUCCEEDED, StrafeActionResult.NONE⟩,
          state := { self with feedback_distance_traveled := distance m self (current_pose w) },
          effects := [Effect.getCurrentPose,
            Effect.publishFeedback (distance m self (current_pose w)), Effect.stopRobot] }) ∨
    (¬ timedOut self w ∧ poseAvailable w = true ∧
      distance m self (current_pose w) < |self.command_x_| ∧
      (lookahead cfg m self w).1 = false ∧
      onCycleUpdate cfg m self w =
        { result := ⟨Status.FAILED, StrafeActionResult.COLLISION_AHEAD⟩,
          state := { self with feedback_distance_traveled := distance m self (current_pose w) },
          effects := [Effect.getCurrentPose,
              Effect.publishFeedback (distance m self (current_pose w))]
            ++ (lookahead cfg m self w).2 ++ [Effect.stopRobot] }) ∨
    (¬ timedOut self w ∧ poseAvailable w = true ∧
      distance m self (current_pose w) < |self.command_x_| ∧
      (lookahead cfg m self w).1 = true ∧
      onCycleUpdate cfg m self w =
        { result := ⟨Status.RUNNING, StrafeActionResult.NONE⟩,
          state := { self with feedback_distance_traveled := distance m self (current_pose w) },
          effects := [Effect.getCurrentPose,
              Effect.publishFeedback (distance m self (current_pose w))]
            ++ (lookahead cfg m self w).2
            ++ [Effect.publishVel
              (candidate
                { self with feedback_distance_traveled := distance m self (current_pose w) }
                w)] }) := by
  by_cases h : timedOut self w
  · exact Or.inl ⟨h, onCycleUpdate_timeout cfg m self w h⟩
  · cases hp : poseAvailable w with
    | false => exact Or.inr (Or.inl ⟨h, rfl, onCycleUpdate_no_pose cfg m self w h hp⟩)
    | true =>
      by_cases hd : |self.command_x_| ≤ distance m self (current_pose w)
      · exact Or.inr (Or.inr (Or.inl ⟨h, rfl, hd, onCycleUpdate_reached cfg m self w h hp hd⟩))
      · have hd2 := not_le.mp hd
        cases hs : (lookahead cfg m self w).1 with
        | false =>
          exact Or.inr (Or.inr (Or.inr (Or.inl
            ⟨h, rfl, hd2, rfl, onCycleUpdate_collision cfg m self w h hp hd2 hs⟩)))
        | true =>
          exact Or.inr (Or.inr (Or.inr (Or.inr
            ⟨h, rfl, hd2, rfl, onCycleUpdate_running cfg m self w h hp hd2 hs⟩)))

/-- No collision query is a velocity output, a feedback sample or a lookup. -/
theorem lookahead_filter_velocity (cfg : Config α) (m : Libm α) (self : Strafe α)
    (w : World α) :
    (lookahead cfg m self w).2.filter Effect.isVelocityOutput = [] := by
  rw [List.filter_eq_nil_iff]
  intro e he
  have := lookahead_effects cfg m self w e he
  cases e <;> simp_all [Effect.isCollisionQuery, Effect.isVelocityOutput]

/-- No collision query is a feedback sample. -/
theorem lookahead_filter_feedback (cfg : Config α) (m : Libm α) (self : Strafe α)
    (w : World α) :
    (lookahead cfg m self w).2.filter Effect.isFeedback = [] := by
  rw [List.filter_eq_nil_iff]
  intro e he
  have := lookahead_effects cfg m self w e he
  cases e <;> simp_all [Effect.isCollisionQuery, Effect.isFeedback]

/-- No collision query is a halt. -/
theorem stopRobot_not_mem_lookahead (cfg : Config α) (m : Libm α) (self : Strafe α)
    (w : World α) : Effect.stopRobot ∉ (lookahead cfg m self w).2 := by
  intro he
  have := lookahead_effects cfg m self w _ he
  simp [Effect.isCollisionQuery] at this

/-- No collision query is a velocity publish. -/
theorem publishVel_not_mem_lookahead (cfg : Config α) (m : Libm α) (self : Strafe α)
    (w : World α) (c : TwistStamped α) : Effect.publishVel c ∉ (lookahead cfg m self w).2 := by
  intro he
  have := lookahead_effects cfg m self w _ he
  simp [Effect.isCollisionQuery] at this

omit [FloorRing α] in
/-- With a collision checker that answers free everywhere, the loop of
`isCollisionFree` reports free. -/
theorem simulate_all_free (cfg : Config α) (m : Libm α) (w : World α) (cmd_vel : TwistStamped α)
    (init_pose : Pose2D α) (diff_dist : α) (hfree : ∀ p f, w.isCollisionFree p f = true)
    (remaining : Nat) :
    ∀ (cycle_count : Nat) (fetch_data : Bool),
      (simulate cfg m w cmd_vel init_pose diff_dist remaining cycle_count fetch_data).1
        = true := by
  induction remaining with
  | zero => intro c f; rfl
  | succ n ih =>
    intro c f
    unfold simulate
    by_cases h1 : diff_dist - |sim_position_change cfg cmd_vel c| ≤ 0
    · simp [h1]
    · simp [h1, hfree, ih]

/-- With a collision checker that answers free everywhere, the look-ahead of a
step reports free. -/
theorem lookahead_all_free (cfg : Config α) (m : Libm α) (self : Strafe α) (w : World α)
    (hfree : ∀ p f, w.isCollisionFree p f = true) : (lookahead cfg m self w).1 = true := by
  unfold lookahead isCollisionFree
  exact simulate_all_free _ _ _ _ _ _ hfree _ _ _

/-- The members recorded by the start of the end-to-end scenario. -/
theorem started_eq :
    started =
      { command_x_ := 2, command_speed_ := 1 / 2, command_time_allowance_ := 10000000000,
        end_time_ := 10000000000, initial_pose_ := poseAt 0 0,
        feedback_distance_traveled := 0 } := by
  simp [started, onRun, demoGoal, idle, worldWith]

/-- The stand-in `hypot` is exact when its first argument is zero. -/
theorem ratLibm_hypot_zero_left (b : ℚ) : ratLibm.hypot 0 b = |b| := by
  simp only [ratLibm, abs_zero, mul_zero, zero_add]
  rw [max_eq_right (abs_nonneg b)]
  rcases eq_or_ne b 0 with hb | hb
  · simp [hb]
  · have h : |b| ≠ 0 := abs_ne_zero.mpr hb
    rw [← abs_mul_abs_self b, mul_div_assoc, div_self h, mul_one]
    ring

/-- In the end-to-end scenario the distance travelled to a pose on the lateral
axis is the magnitude of its ordinate. -/
theorem distance_started (y : ℚ) (now : Int) (free : Pose2D ℚ → Bool → Bool) :
    distance ratLibm started (current_pose (worldWith now (poseAt 0 y) free)) = |y| := by
  simp only [distance, current_pose, worldWith, poseAt, started_eq, sub_self, zero_sub]
  rw [ratLibm_hypot_zero_left, abs_neg]

/-- A step changes no member other than the feedback value. -/
theorem onCycleUpdate_state_eq (cfg : Config α) (m : Libm α) (self : Strafe α) (w : World α) :
    (onCycleUpdate cfg m self w).state =
      { self with
        feedback_distance_traveled :=
          (onCycleUpdate cfg m self w).state.feedback_distance_traveled } := by
  rcases onCycleUpdate_cases cfg m self w with
    ⟨_, e⟩ | ⟨_, _, e⟩ | ⟨_, _, _, e⟩ | ⟨_, _, _, _, e⟩ | ⟨_, _, _, _, e⟩ <;>
  rw [e]

/-- Any number of steps leaves the recorded command, deadline and initial pose
as they were. -/
theorem stateAfter_fields (cfg : Config α) (m : Libm α) (self : Strafe α) (ws : Nat → World α)
    (k : Nat) :
    (stateAfter cfg m self ws k).command_x_ = self.command_x_ ∧
      (stateAfter cfg m self ws k).command_speed_ = self.command_speed_ ∧
      (stateAfter cfg m self ws k).command_time_allowance_ = self.command_time_allowance_ ∧
      (stateAfter cfg m self ws k).end_time_ = self.end_time_ ∧
      (stateAfter cfg m self ws k).initial_pose_ = self.initial_pose_ := by
  induction k with
  | zero => exact ⟨rfl, rfl, rfl, rfl, rfl⟩
  | succ n ih =>
    have h := onCycleUpdate_state_eq cfg m (stateAfter cfg m self ws n) (ws n)
    obtain ⟨h1, h2, h3, h4, h5⟩ := ih
    exact ⟨(congrArg Strafe.command_x_ h).trans h1,
      (congrArg Strafe.command_speed_ h).trans h2,
      (congrArg Strafe.command_time_allowance_ h).trans h3,
      (congrArg Strafe.end_time_ h).trans h4,
      (congrArg Strafe.initial_pose_ h).trans h5⟩

omit [FloorRing α] in
/-- The Euclidean norm is unique. -/
theorem euclideanNorm_unique {d e a b : α} (hd : IsEuclideanNorm d a b)
    (he : IsEuclideanNorm e a b) : d = e := by
  obtain ⟨hd0, hd2⟩ := hd
  obtain ⟨he0, he2⟩ := he
  exact (mul_self_inj hd0 he0).mp (hd2.trans he2.symm)

omit [FloorRing α] in
/-- Comparing a magnitude with a Euclidean norm is comparing the squares. -/
theorem euclideanNorm_abs_le_iff {d a b : α} (hd : IsEuclideanNorm d a b) (x : α) :
    |x| ≤ d ↔ x * x ≤ a * a + b * b := by
  obtain ⟨hd0, hd2⟩ := hd
  rw [← hd2, ← abs_mul_abs_self x]
  exact (mul_self_le_mul_self_iff (abs_nonneg x) hd0)

omit [FloorRing α] in
/-- The loop of `isCollisionFree` reports not-free as soon as the collision
checker does so at some pass `k` that no early exit precedes. -/
theorem simulate_veto (cfg : Config α) (m : Libm α) (w : World α) (cmd_vel : TwistStamped α)
    (init_pose : Pose2D α) (diff_dist : α) (k : Nat) :
    ∀ (cycle_count : Nat) (fetch_data : Bool) (remaining : Nat), k < remaining →
      (∀ j ≤ k, ¬ (diff_dist - |sim_position_change cfg cmd_vel (cycle_count + j)| ≤ 0)) →
      w.isCollisionFree
          (sim_pose m init_pose (sim_position_change cfg cmd_vel (cycle_count + k)))
          (if k = 0 then fetch_data else false) = false →
      (simulate cfg m w cmd_vel init_pose diff_dist remaining cycle_count fetch_data).1
        = false := by
  induction k with
  | zero =>
    intro c f n hn hexit hcol
    obtain ⟨n, rfl⟩ := Nat.exists_eq_succ_of_ne_zero (Nat.pos_iff_ne_zero.mp hn)
    have h0 := hexit 0 (le_refl 0)
    simp only [Nat.add_zero, if_true] at h0 hcol
    unfold simulate
    simp [h0, hcol]
  | succ k ih =>
    intro c f n hn hexit hcol
    obtain ⟨n, rfl⟩ := Nat.exists_eq_succ_of_ne_zero (Nat.pos_iff_ne_zero.mp (by omega : 0 < n))
    have h0 := hexit 0 (Nat.zero_le _)
    simp only [Nat.add_zero] at h0
    have hrest : (simulate cfg m w cmd_vel init_pose diff_dist n (c + 1) false).1 = false := by
      apply ih (c + 1) false n (by omega)
      · intro j hj
        have := hexit (j + 1) (by omega)
        rwa [show c + (j + 1) = c + 1 + j by omega] at this
      · rw [show c + 1 + k = c + (k + 1) by omega]
        simpa using hcol
    unfold simulate
    by_cases h2 : w.isCollisionFree
        (sim_pose m init_pose (sim_position_change cfg cmd_vel c)) f = true
    · simp [h0, h2, hrest]
    · rw [Bool.not_eq_true] at h2
      simp [h0, h2]

omit [FloorRing α] in
/-- A successful `onRun` has recorded the lateral distance of the command. -/
theorem onRun_command_x (self : Strafe α) (w : World α) (command : Goal α)
    (h : (onRun self w command).result.status = Status.SUCCEEDED) :
    (onRun self w command).state.command_x_ = command.target.y := by
  unfold onRun at h ⊢
  by_cases hc : command.target.x ≠ 0 ∨ command.target.z ≠ 0
  · rw [if_pos hc] at h
    cases h
  · rw [if_neg hc]
    cases hl : (w.getCurrentPose self.initial_pose_).1 <;> simp [hl]

/-- The horizon of the concrete configuration is 20 passes. -/
theorem max_cycle_count_demo : max_cycle_count demoConfig ratLibm = 20 := by
  simp only [max_cycle_count, static_cast_int, demoConfig, ratLibm]
  norm_num

omit [FloorRing α] in
/-- A pose displaced by `d ≥ 0` along a unit vector is at distance `d`. -/
theorem distance_along (m : Libm α) (self : Strafe α) (cur : PoseStamped α) (ux uy d : α)
    (hu : ux * ux + uy * uy = 1) (hd : 0 ≤ d)
    (hx : cur.pose.position.x = self.initial_pose_.pose.position.x + ux * d)
    (hy : cur.pose.position.y = self.initial_pose_.pose.position.y + uy * d)
    (hE : IsEuclideanNorm (distance m self cur)
      (self.initial_pose_.pose.position.x - cur.pose.position.x)
      (self.initial_pose_.pose.position.y - cur.pose.position.y)) :
    distance m self cur = d := by
  apply euclideanNorm_unique hE
  refine ⟨hd, ?_⟩
  rw [hx, hy]
  linear_combination (-(d * d)) * hu

omit [FloorRing α] in
/-- A clock reading within a nanosecond of `t` seconds after the start, with
`t ≤ 10`, is not past a deadline 10 s after the start. -/
theorem not_past_deadline (start now : Int) (t : α) (ht : t ≤ 10)
    (hclock : |((now - start : Int) : α) - t * 1000000000| < 1) :
    ¬ (start + 10000000000 < now) := by
  intro hlt
  have h1 : (10000000000 : Int) + 1 ≤ now - start := by omega
  have h2 : ((10000000000 : α) + 1) ≤ ((now - start : Int) : α) := by exact_mod_cast h1
  have h3 := (abs_lt.mp hclock).2
  linarith

/-! ## Properties of `onRun` -/

omit [FloorRing α] in
/-- C1: a command whose target has a nonzero x or a nonzero z component is
rejected by `onRun` with FAILED / INVALID_INPUT, whatever the members, the
clock and the pose source are; no pose lookup (indeed no action at all) is
performed and every member is left as it was. -/
theorem onRun_off_axis_rejected (self : Strafe α) (w : World α) (command : Goal α)
    (h : command.target.x ≠ 0 ∨ command.target.z ≠ 0) :
    (onRun self w command).result = ⟨Status.FAILED, StrafeActionResult.INVALID_INPUT⟩ ∧
      (onRun self w command).effects = [] ∧
      (onRun self w command).state = self := by
  unfold onRun
  rw [if_pos h]
  exact ⟨rfl, rfl, rfl⟩

/-- Witness of C1: a target with x = 1 and z = 0, submitted while a previous
command is recorded. -/
theorem onRun_off_axis_rejected_witness :
    ((⟨1, 2, 0⟩ : Vector3 ℚ).x ≠ 0 ∨ (⟨1, 2, 0⟩ : Vector3 ℚ).z ≠ 0) ∧
      (onRun started (worldWith 5 (poseAt 3 4) (fun _ _ => true))
          { target := ⟨1, 2, 0⟩, speed := 1 / 2, time_allowance := 7 }).result
        = ⟨Status.FAILED, StrafeActionResult.INVALID_INPUT⟩ ∧
      (onRun started (worldWith 5 (poseAt 3 4) (fun _ _ => true))
          { target := ⟨1, 2, 0⟩, speed := 1 / 2, time_allowance := 7 }).effects = [] ∧
      (onRun started (worldWith 5 (poseAt 3 4) (fun _ _ => true))
          { target := ⟨1, 2, 0⟩, speed := 1 / 2, time_allowance := 7 }).state = started :=
  ⟨Or.inl (by norm_num),
    onRun_off_axis_rejected started (worldWith 5 (poseAt 3 4) (fun _ _ => true))
      { target := ⟨1, 2, 0⟩, speed := 1 / 2, time_allowance := 7 } (Or.inl (by norm_num))⟩

omit [FloorRing α] in
/-- C2: for a command with target.x = 0 and target.z = 0 and any clock reading
`w.now`, `onRun` looks the pose up exactly once; when the lookup succeeds with
pose `p` it returns SUCCEEDED / NONE and the members are: lateral distance =
target.y, speed = command speed, time allowance = command time allowance,
deadline = now + time allowance, initial pose = `p`; when the lookup fails it
returns FAILED / TF_ERROR. -/
theorem onRun_on_axis (self : Strafe α) (w : World α) (command : Goal α)
    (hx : command.target.x = 0) (hz : command.target.z = 0) :
    (onRun self w command).effects = [Effect.getCurrentPose] ∧
      (∀ p : PoseStamped α, w.getCurrentPose self.initial_pose_ = (true, p) →
        (onRun self w command).result = ⟨Status.SUCCEEDED, StrafeActionResult.NONE⟩ ∧
          (onRun self w command).state.command_x_ = command.target.y ∧
          (onRun self w command).state.command_speed_ = command.speed ∧
          (onRun self w command).state.command_time_allowance_ = command.time_allowance ∧
          (onRun self w command).state.end_time_ = w.now + command.time_allowance ∧
          (onRun self w command).state.initial_pose_ = p) ∧
      ((w.getCurrentPose self.initial_pose_).1 = false →
        (onRun self w command).result = ⟨Status.FAILED, StrafeActionResult.TF_ERROR⟩) := by
  have hc : ¬ (command.target.x ≠ 0 ∨ command.target.z ≠ 0) := by
    rw [hx, hz]; simp
  unfold onRun
  rw [if_neg hc]
  refine ⟨?_, ?_, ?_⟩
  · cases hl : (w.getCurrentPose self.initial_pose_).1 <;> simp [hl]
  · intro p hp
    simp [hp]
  · intro hp
    simp [hp]

/-- Witness of C2: the command of the end-to-end scenario, accepted at time 0
at the origin. -/
theorem onRun_on_axis_witness :
    (demoGoal : Goal ℚ).target.x = 0 ∧ (demoGoal : Goal ℚ).target.z = 0 ∧
      (worldWith 0 (poseAt 0 0) (fun _ _ => true)).getCurrentPose idle.initial_pose_
        = (true, poseAt 0 0) ∧
      (onRun idle (worldWith 0 (poseAt 0 0) (fun _ _ => true)) demoGoal).result
        = ⟨Status.SUCCEEDED, StrafeActionResult.NONE⟩ ∧
      (onRun idle (worldWith 0 (poseAt 0 0) (fun _ _ => true)) demoGoal).state.end_time_
        = 10000000000 ∧
      ((worldNoPose 0).getCurrentPose idle.initial_pose_).1 = false ∧
      (onRun idle (worldNoPose 0) demoGoal).result
        = ⟨Status.FAILED, StrafeActionResult.TF_ERROR⟩ :=
  ⟨rfl, rfl, rfl,
    ((onRun_on_axis idle (worldWith 0 (poseAt 0 0) (fun _ _ => true)) demoGoal rfl rfl).2.1
      (poseAt 0 0) rfl).1,
    (((onRun_on_axis idle (worldWith 0 (poseAt 0 0) (fun _ _ => true)) demoGoal rfl rfl).2.1
      (poseAt 0 0) rfl).2.2.2.2.1).trans (by norm_num [worldWith, demoGoal]),
    rfl,
    (onRun_on_axis idle (worldNoPose 0) demoGoal rfl rfl).2.2 rfl⟩

/-! ## Properties of `onCycleUpdate` -/

/-- Velocity outputs and feedback samples of one step: a step whose pose lookup
fails (without timeout) emits no velocity output at all, every other step emits
exactly one; no step publishes more than one feedback sample. -/
theorem onCycleUpdate_output_count (cfg : Config α) (m : Libm α) (self : Strafe α)
    (w : World α) :
    (((onCycleUpdate cfg m self w).effects.filter Effect.isVelocityOutput).length =
        if ¬ timedOut self w ∧ poseAvailable w = false then 0 else 1) ∧
      ((onCycleUpdate cfg m self w).effects.filter Effect.isFeedback).length ≤ 1 := by
  have hv := lookahead_filter_velocity cfg m self w
  have hf := lookahead_filter_feedback cfg m self w
  rcases onCycleUpdate_cases cfg m self w with
    ⟨h, e⟩ | ⟨h, hp, e⟩ | ⟨h, hp, _, e⟩ | ⟨h, hp, _, _, e⟩ | ⟨h, hp, _, _, e⟩
  · rw [e]; simp [h, List.filter_cons, Effect.isVelocityOutput, Effect.isFeedback]
  · rw [e]; simp [h, hp, List.filter_cons, Effect.isVelocityOutput, Effect.isFeedback]
  · rw [e]; simp [hp, List.filter_cons, Effect.isVelocityOutput, Effect.isFeedback]
  · rw [e]
    simp [hp, List.filter_cons, List.filter_append, hv, hf, Effect.isVelocityOutput,
      Effect.isFeedback]
  · rw [e]
    simp [hp, List.filter_cons, List.filter_append, hv, hf, Effect.isVelocityOutput,
      Effect.isFeedback]

/-- C3 (evaluation at the failing input): with the end-to-end command recorded
and the clock one second after the start, a step whose pose lookup fails
returns FAILED / TF_ERROR having performed the lookup only: it issues no halt
and emits no velocity output at all. -/
theorem onCycleUpdate_no_pose_emits_no_halt :
    (onCycleUpdate demoConfig ratLibm started (worldNoPose 1000000000)).result
        = ⟨Status.FAILED, StrafeActionResult.TF_ERROR⟩ ∧
      (onCycleUpdate demoConfig ratLibm started (worldNoPose 1000000000)).effects
        = [Effect.getCurrentPose] ∧
      Effect.stopRobot ∉
        (onCycleUpdate demoConfig ratLibm started (worldNoPose 1000000000)).effects ∧
      ((onCycleUpdate demoConfig ratLibm started (worldNoPose 1000000000)).effects.filter
        Effect.isVelocityOutput).length = 0 := by
  have e := onCycleUpdate_no_pose demoConfig ratLibm started (worldNoPose 1000000000)
    (by decide) rfl
  rw [e]
  simp [Effect.isVelocityOutput]

/-- C4: a step returns FAILED with reason NONE exactly when the clock is past
the deadline and the time allowance is positive; it then issues the halt and
does nothing else (no pose lookup, no feedback, no collision query), whatever
the pose source would have answered.  Hence a zero time allowance never gives
the timeout failure, and a clock equal to the deadline does not time out. -/
theorem onCycleUpdate_timeout_iff (cfg : Config α) (m : Libm α) (self : Strafe α)
    (w : World α) :
    ((onCycleUpdate cfg m self w).result = ⟨Status.FAILED, StrafeActionResult.NONE⟩ ↔
        (self.end_time_ < w.now ∧ 0 < self.command_time_allowance_)) ∧
      ((self.end_time_ < w.now ∧ 0 < self.command_time_allowance_) →
        (onCycleUpdate cfg m self w).effects = [Effect.stopRobot]) ∧
      (self.command_time_allowance_ = 0 →
        (onCycleUpdate cfg m self w).result ≠ ⟨Status.FAILED, StrafeActionResult.NONE⟩) ∧
      (w.now = self.end_time_ →
        (onCycleUpdate cfg m self w).result ≠ ⟨Status.FAILED, StrafeActionResult.NONE⟩) := by
  have key : (onCycleUpdate cfg m self w).result = ⟨Status.FAILED, StrafeActionResult.NONE⟩ ↔
      (self.end_time_ < w.now ∧ 0 < self.command_time_allowance_) := by
    rcases onCycleUpdate_cases cfg m self w with
      ⟨h, e⟩ | ⟨h, _, e⟩ | ⟨h, _, _, e⟩ | ⟨h, _, _, _, e⟩ | ⟨h, _, _, _, e⟩ <;>
    rw [e] <;> unfold timedOut at h <;> simp [h]
  refine ⟨key, ?_, ?_, ?_⟩
  · intro h
    rw [onCycleUpdate_timeout cfg m self w h]
  · intro h0 hr
    have := key.mp hr
    omega
  · intro h0 hr
    have := key.mp hr
    omega

/-- Witness of C4 at a timed-out step: the end-to-end command, the clock 11 s
after the start and no pose available; the step fails with reason NONE having
issued the halt only. -/
theorem onCycleUpdate_timeout_iff_witness :
    (onCycleUpdate demoConfig ratLibm started (worldNoPose 11000000000)).result
        = ⟨Status.FAILED, StrafeActionResult.NONE⟩ ∧
      (onCycleUpdate demoConfig ratLibm started (worldNoPose 11000000000)).effects
        = [Effect.stopRobot] :=
  ⟨(onCycleUpdate_timeout_iff demoConfig ratLibm started (worldNoPose 11000000000)).1.mpr
      (by decide),
    (onCycleUpdate_timeout_iff demoConfig ratLibm started (worldNoPose 11000000000)).2.1
      (by decide)⟩

/-- C7: a step returns RUNNING exactly when it publishes a velocity command;
any command it publishes has linear x = 0, angular z = 0 and linear y = the
recorded speed (its other components are zero as well); a RUNNING step issues
no halt. -/
theorem onCycleUpdate_running_iff_publish (cfg : Config α) (m : Libm α) (self : Strafe α)
    (w : World α) :
    ((onCycleUpdate cfg m self w).result.status = Status.RUNNING ↔
        ∃ c, Effect.publishVel c ∈ (onCycleUpdate cfg m self w).effects) ∧
      (∀ c, Effect.publishVel c ∈ (onCycleUpdate cfg m self w).effects →
        c.twist.linear.x = 0 ∧ c.twist.angular.z = 0 ∧
          c.twist.linear.y = self.command_speed_ ∧
          c.twist.linear.z = 0 ∧ c.twist.angular.x = 0 ∧ c.twist.angular.y = 0) ∧
      ((onCycleUpdate cfg m self w).result.status = Status.RUNNING →
        Effect.stopRobot ∉ (onCycleUpdate cfg m self w).effects) := by
  have hv := publishVel_not_mem_lookahead cfg m self w
  have hs := stopRobot_not_mem_lookahead cfg m self w
  rcases onCycleUpdate_cases cfg m self w with
    ⟨h, e⟩ | ⟨h, _, e⟩ | ⟨h, _, _, e⟩ | ⟨h, _, _, _, e⟩ | ⟨h, _, _, _, e⟩ <;>
  rw [e] <;> simp [hv, hs, candidate, TwistStamped.init]

/-- Witness of C7: the first step of the end-to-end scenario (robot still at
its initial pose, collision checker always free) returns RUNNING and publishes
a command with lateral speed 1/2. -/
theorem onCycleUpdate_running_iff_publish_witness :
    (onCycleUpdate demoConfig ratLibm started
        (worldWith 0 (poseAt 0 0) (fun _ _ => true))).result.status = Status.RUNNING ∧
      ∃ c, Effect.publishVel c ∈ (onCycleUpdate demoConfig ratLibm started
          (worldWith 0 (poseAt 0 0) (fun _ _ => true))).effects ∧
        c.twist.linear.y = 1 / 2 := by
  have hr : (onCycleUpdate demoConfig ratLibm started
      (worldWith 0 (poseAt 0 0) (fun _ _ => true))).result.status = Status.RUNNING := by
    rw [onCycleUpdate_running demoConfig ratLibm started
      (worldWith 0 (poseAt 0 0) (fun _ _ => true)) (by decide) rfl
      (by rw [distance_started, started_eq]; norm_num)
      (lookahead_all_free _ _ _ _ (fun _ _ => rfl))]
  obtain ⟨c, hc⟩ := (onCycleUpdate_running_iff_publish demoConfig ratLibm started
    (worldWith 0 (poseAt 0 0) (fun _ _ => true))).1.mp hr
  exact ⟨hr, c, hc, ((onCycleUpdate_running_iff_publish demoConfig ratLibm started
    (worldWith 0 (poseAt 0 0) (fun _ _ => true))).2.1 c hc).2.2.1⟩

/-- C9: whatever a step returns, it leaves the recorded lateral distance,
speed, time allowance, deadline and initial pose as they were (the look-ahead
it calls has no access to them other than reading). -/
theorem onCycleUpdate_preserves_command (cfg : Config α) (m : Libm α) (self : Strafe α)
    (w : World α) :
    (onCycleUpdate cfg m self w).state.command_x_ = self.command_x_ ∧
      (onCycleUpdate cfg m self w).state.command_speed_ = self.command_speed_ ∧
      (onCycleUpdate cfg m self w).state.command_time_allowance_
        = self.command_time_allowance_ ∧
      (onCycleUpdate cfg m self w).state.end_time_ = self.end_time_ ∧
      (onCycleUpdate cfg m self w).state.initial_pose_ = self.initial_pose_ := by
  rw [onCycleUpdate_state_eq cfg m self w]
  exact ⟨rfl, rfl, rfl, rfl, rfl⟩

/-- C5: in a step in which the timeout does not fire and the pose lookup
succeeds, with the library `hypot` returning the Euclidean norm of the
displacement between the recorded initial pose and the pose looked up, the
step returns SUCCEEDED if and only if the planar Euclidean distance `d` between
the two poses is at least the magnitude of the lateral distance (equivalently,
the squared displacement is at least the squared lateral distance); it then
issues the halt, publishes no velocity command and makes no collision query.
In particular a zero lateral distance gives SUCCEEDED, and so does the first
such step after a successful `onRun` of a command with zero lateral distance. -/
theorem onCycleUpdate_succeeded_iff (cfg : Config α) (m : Libm α) (self : Strafe α)
    (w : World α)
    (ht : ¬ (self.end_time_ < w.now ∧ 0 < self.command_time_allowance_))
    (hp : poseAvailable w = true)
    (hE : IsEuclideanNorm
      (m.hypot (self.initial_pose_.pose.position.x - (current_pose w).pose.position.x)
        (self.initial_pose_.pose.position.y - (current_pose w).pose.position.y))
      (self.initial_pose_.pose.position.x - (current_pose w).pose.position.x)
      (self.initial_pose_.pose.position.y - (current_pose w).pose.position.y)) :
    (∀ d : α,
        IsEuclideanNorm d
          (self.initial_pose_.pose.position.x - (current_pose w).pose.position.x)
          (self.initial_pose_.pose.position.y - (current_pose w).pose.position.y) →
        ((onCycleUpdate cfg m self w).result.status = Status.SUCCEEDED ↔
          |self.command_x_| ≤ d)) ∧
      ((onCycleUpdate cfg m self w).result.status = Status.SUCCEEDED ↔
        self.command_x_ * self.command_x_ ≤
          (self.initial_pose_.pose.position.x - (current_pose w).pose.position.x) *
              (self.initial_pose_.pose.position.x - (current_pose w).pose.position.x) +
            (self.initial_pose_.pose.position.y - (current_pose w).pose.position.y) *
              (self.initial_pose_.pose.position.y - (current_pose w).pose.position.y)) ∧
      ((onCycleUpdate cfg m self w).result.status = Status.SUCCEEDED →
        Effect.stopRobot ∈ (onCycleUpdate cfg m self w).effects ∧
          (∀ c, Effect.publishVel c ∉ (onCycleUpdate cfg m self w).effects) ∧
          (∀ p f, Effect.collisionQuery p f ∉ (onCycleUpdate cfg m self w).effects)) ∧
      (self.command_x_ = 0 →
        (onCycleUpdate cfg m self w).result = ⟨Status.SUCCEEDED, StrafeActionResult.NONE⟩) ∧
      (∀ (prior : Strafe α) (w0 : World α) (command : Goal α),
        command.target.y = 0 →
        (onRun prior w0 command).result.status = Status.SUCCEEDED →
        self = (onRun prior w0 command).state →
        (onCycleUpdate cfg m self w).result = ⟨Status.SUCCEEDED, StrafeActionResult.NONE⟩) := by
  have ht2 : ¬ timedOut self w := ht
  -- the value the code compares is the library `hypot` of the displacement
  have hdist : distance m self (current_pose w) =
      m.hypot (self.initial_pose_.pose.position.x - (current_pose w).pose.position.x)
        (self.initial_pose_.pose.position.y - (current_pose w).pose.position.y) := by
    simp only [distance]
  have key : (onCycleUpdate cfg m self w).result.status = Status.SUCCEEDED ↔
      |self.command_x_| ≤
        m.hypot (self.initial_pose_.pose.position.x - (current_pose w).pose.position.x)
          (self.initial_pose_.pose.position.y - (current_pose w).pose.position.y) := by
    rw [← hdist]
    rcases onCycleUpdate_cases cfg m self w with
      ⟨h, _⟩ | ⟨_, hp2, _⟩ | ⟨_, _, hd, e⟩ | ⟨_, _, hd, _, e⟩ | ⟨_, _, hd, _, e⟩
    · exact absurd h ht2
    · rw [hp] at hp2; cases hp2
    · rw [e]; simp [hd]
    · rw [e]; simp [not_le.mpr hd]
    · rw [e]; simp [not_le.mpr hd]
  have zero : self.command_x_ = 0 →
      (onCycleUpdate cfg m self w).result = ⟨Status.SUCCEEDED, StrafeActionResult.NONE⟩ := by
    intro h0
    rw [onCycleUpdate_reached cfg m self w ht2 hp
      (by rw [h0, abs_zero, hdist]; exact hE.1)]
  refine ⟨?_, key.trans (euclideanNorm_abs_le_iff hE _), ?_, zero, ?_⟩
  · intro d hd
    rw [euclideanNorm_unique hd hE]
    exact key
  · intro hs
    rw [onCycleUpdate_reached cfg m self w ht2 hp (by rw [hdist]; exact key.mp hs)]
    simp
  · intro prior w0 command hy hs hself
    apply zero
    rw [hself, onRun_command_x prior w0 command hs, hy]

/-- Witness of C5 on the end-to-end command (lateral distance 2 m): the step
made 2.5 m from the initial pose returns SUCCEEDED, the step made 1 m from it
does not; and after `zeroGoal` has been accepted, the first step (robot still
at the origin) returns SUCCEEDED. -/
theorem onCycleUpdate_succeeded_iff_witness :
    (onCycleUpdate demoConfig ratLibm started
        (worldWith 5000000000 (poseAt 0 (5 / 2)) (fun _ _ => true))).result.status
        = Status.SUCCEEDED ∧
      (onCycleUpdate demoConfig ratLibm started
        (worldWith 2000000000 (poseAt 0 1) (fun _ _ => true))).result.status
        ≠ Status.SUCCEEDED ∧
      (onCycleUpdate demoConfig ratLibm startedZero
        (worldWith 100000000 (poseAt 0 0) (fun _ _ => true))).result
        = ⟨Status.SUCCEEDED, StrafeActionResult.NONE⟩ := by
  have hE : ∀ (now : Int) (y : ℚ), IsEuclideanNorm
      (ratLibm.hypot
        (started.initial_pose_.pose.position.x
          - (current_pose (worldWith now (poseAt 0 y) (fun _ _ => true))).pose.position.x)
        (started.initial_pose_.pose.position.y
          - (current_pose (worldWith now (poseAt 0 y) (fun _ _ => true))).pose.position.y))
      (started.initial_pose_.pose.position.x
        - (current_pose (worldWith now (poseAt 0 y) (fun _ _ => true))).pose.position.x)
      (started.initial_pose_.pose.position.y
        - (current_pose (worldWith now (poseAt 0 y) (fun _ _ => true))).pose.position.y) := by
    intro now y
    simp only [current_pose, worldWith, poseAt, started_eq, sub_self]
    rw [ratLibm_hypot_zero_left]
    exact ⟨abs_nonneg _, by rw [abs_mul_abs_self]; ring⟩
  refine ⟨?_, ?_, ?_⟩
  · refine (onCycleUpdate_succeeded_iff demoConfig ratLibm started
      (worldWith 5000000000 (poseAt 0 (5 / 2)) (fun _ _ => true)) (by decide) rfl
      (hE _ _)).2.1.mpr ?_
    norm_num [current_pose, worldWith, poseAt, started_eq]
  · intro hs
    have := (onCycleUpdate_succeeded_iff demoConfig ratLibm started
      (worldWith 2000000000 (poseAt 0 1) (fun _ _ => true)) (by decide) rfl
      (hE _ _)).2.1.mp hs
    norm_num [current_pose, worldWith, poseAt, started_eq] at this
  · exact (onCycleUpdate_succeeded_iff demoConfig ratLibm startedZero
      (worldWith 100000000 (poseAt 0 0) (fun _ _ => true)) (by decide) rfl
      (by
        simp only [current_pose, worldWith, poseAt, startedZero, onRun, zeroGoal, idle]
        norm_num [IsEuclideanNorm, ratLibm])).2.2.2.1
      (by simp [startedZero, onRun, zeroGoal, idle, worldWith])

/-- C6 (collision veto): in a step in which the timeout does not fire, the pose
lookup succeeds and the distance travelled is below the magnitude of the
lateral distance, if at some pass `k` within the horizon the collision checker
reports not-free for the projected pose, and the early exit
`remaining - |speed * j / cycle_frequency| ≤ 0` has not triggered at any pass
`j ≤ k`, then the step returns FAILED / COLLISION_AHEAD, issues the halt and
publishes no velocity command. -/
theorem onCycleUpdate_collision_veto (cfg : Config α) (m : Libm α) (self : Strafe α)
    (w : World α)
    (ht : ¬ (self.end_time_ < w.now ∧ 0 < self.command_time_allowance_))
    (hp : poseAvailable w = true)
    (hd : distance m self (current_pose w) < |self.command_x_|)
    (k : Nat) (hk : (k : Int) < max_cycle_count cfg m)
    (hexit : ∀ j ≤ k, ¬ (|self.command_x_| - distance m self (current_pose w)
      - |self.command_speed_ * (j : α) / cfg.cycle_frequency_| ≤ 0))
    (hcol : w.isCollisionFree
      (sim_pose m (pose2d m (current_pose w))
        (self.command_speed_ * ((k : α) / cfg.cycle_frequency_)))
      (decide (k = 0)) = false) :
    (onCycleUpdate cfg m self w).result
        = ⟨Status.FAILED, StrafeActionResult.COLLISION_AHEAD⟩ ∧
      Effect.stopRobot ∈ (onCycleUpdate cfg m self w).effects ∧
      (∀ c, Effect.publishVel c ∉ (onCycleUpdate cfg m self w).effects) := by
  have hs : (lookahead cfg m self w).1 = false := by
    unfold lookahead isCollisionFree
    apply simulate_veto _ _ _ _ _ _ k 0 true _ (by omega)
    · intro j hj
      have := hexit j hj
      simpa [sim_position_change, candidate, TwistStamped.init, mul_div_assoc] using this
    · have hflag : (if k = 0 then true else false) = decide (k = 0) := by
        by_cases h0 : k = 0 <;> simp [h0]
      rw [hflag]
      simpa [sim_position_change, candidate, TwistStamped.init] using hcol
  have hv := publishVel_not_mem_lookahead cfg m self w
  rw [onCycleUpdate_collision cfg m self w ht hp hd hs]
  simp [hv]

/-- Witness of C6: the end-to-end command, first step at the origin, collision
checker not-free exactly at the third simulated pose: the step fails with
COLLISION_AHEAD. -/
theorem onCycleUpdate_collision_veto_witness :
    (sim_pose ratLibm (pose2d ratLibm (current_pose (worldWith 0 (poseAt 0 0)
        (blockedAt thirdPose)))) (started.command_speed_ * (((2 : Nat) : ℚ)
          / demoConfig.cycle_frequency_))) = thirdPose ∧
      (onCycleUpdate demoConfig ratLibm started
        (worldWith 0 (poseAt 0 0) (blockedAt thirdPose))).result
        = ⟨Status.FAILED, StrafeActionResult.COLLISION_AHEAD⟩ ∧
      Effect.stopRobot ∈ (onCycleUpdate demoConfig ratLibm started
        (worldWith 0 (poseAt 0 0) (blockedAt thirdPose))).effects ∧
      (∀ c, Effect.publishVel c ∉ (onCycleUpdate demoConfig ratLibm started
        (worldWith 0 (poseAt 0 0) (blockedAt thirdPose))).effects) :=
  ⟨by simp [thirdPose, sim_position_change, candidate, TwistStamped.init, current_pose,
      worldWith, started_eq],
    onCycleUpdate_collision_veto demoConfig ratLibm started
      (worldWith 0 (poseAt 0 0) (blockedAt thirdPose)) (by decide) rfl
      (by rw [distance_started, started_eq]; norm_num)
      2 (by rw [max_cycle_count_demo]; decide)
      (by
        intro j hj
        rw [distance_started, started_eq]
        interval_cases j <;> norm_num [demoConfig, abs_lt])
      (by simp [thirdPose, sim_position_change, candidate, TwistStamped.init, current_pose,
        worldWith, started_eq, blockedAt])⟩

/-- C8: in a step in which the timeout does not fire and the pose lookup
succeeds, with `hypot` returning the Euclidean norm of its arguments, exactly
one feedback sample is published and its `distance_traveled` is the
non-negative root of `(initial.x - current.x)² + (initial.y - current.y)²`.
The value depends on the recorded initial pose and on the pose looked up in
this step only: it is the same after any number `k` of earlier steps, whatever
the worlds `ws` answered in them. -/
theorem onCycleUpdate_feedback_distance (cfg : Config α) (m : Libm α) (self : Strafe α)
    (ws : Nat → World α) (k : Nat) (w : World α)
    (ht : ¬ (self.end_time_ < w.now ∧ 0 < self.command_time_allowance_))
    (hp : poseAvailable w = true)
    (hE : IsEuclideanNorm
      (m.hypot (self.initial_pose_.pose.position.x - (current_pose w).pose.position.x)
        (self.initial_pose_.pose.position.y - (current_pose w).pose.position.y))
      (self.initial_pose_.pose.position.x - (current_pose w).pose.position.x)
      (self.initial_pose_.pose.position.y - (current_pose w).pose.position.y)) :
    ∃ d : α,
      (onCycleUpdate cfg m (stateAfter cfg m self ws k) w).effects.filter Effect.isFeedback
          = [Effect.publishFeedback d] ∧
        (onCycleUpdate cfg m (stateAfter cfg m self ws k) w).state.feedback_distance_traveled
          = d ∧
        0 ≤ d ∧
        d * d =
          (self.initial_pose_.pose.position.x - (current_pose w).pose.position.x) *
              (self.initial_pose_.pose.position.x - (current_pose w).pose.position.x) +
            (self.initial_pose_.pose.position.y - (current_pose w).pose.position.y) *
              (self.initial_pose_.pose.position.y - (current_pose w).pose.position.y) := by
  obtain ⟨_, _, h3, h4, h5⟩ := stateAfter_fields cfg m self ws k
  have hdist : distance m (stateAfter cfg m self ws k) (current_pose w) =
      m.hypot (self.initial_pose_.pose.position.x - (current_pose w).pose.position.x)
        (self.initial_pose_.pose.position.y - (current_pose w).pose.position.y) := by
    simp only [distance, h5]
  have ht2 : ¬ timedOut (stateAfter cfg m self ws k) w := by
    unfold timedOut
    rw [h3, h4]
    exact ht
  have hf := lookahead_filter_feedback cfg m (stateAfter cfg m self ws k) w
  refine ⟨_, ?_, ?_, hE.1, hE.2⟩
  · rcases onCycleUpdate_cases cfg m (stateAfter cfg m self ws k) w with
      ⟨h, _⟩ | ⟨_, hp2, _⟩ | ⟨_, _, _, e⟩ | ⟨_, _, _, _, e⟩ | ⟨_, _, _, _, e⟩
    · exact absurd h ht2
    · rw [hp] at hp2; cases hp2
    · rw [e, hdist]; simp [List.filter_cons, Effect.isFeedback]
    · rw [e, hdist]; simp [List.filter_cons, List.filter_append, hf, Effect.isFeedback]
    · rw [e, hdist]; simp [List.filter_cons, List.filter_append, hf, Effect.isFeedback]
  · rcases onCycleUpdate_cases cfg m (stateAfter cfg m self ws k) w with
      ⟨h, _⟩ | ⟨_, hp2, _⟩ | ⟨_, _, _, e⟩ | ⟨_, _, _, _, e⟩ | ⟨_, _, _, _, e⟩
    · exact absurd h ht2
    · rw [hp] at hp2; cases hp2
    · rw [e, hdist]
    · rw [e, hdist]
    · rw [e, hdist]

/-- Witness of C8: in the end-to-end scenario, the step made 0.2 m from the
initial pose publishes the feedback value 1/5, after three earlier steps. -/
theorem onCycleUpdate_feedback_distance_witness :
    (onCycleUpdate demoConfig ratLibm (stateAfter demoConfig ratLibm started lateralWorld 3)
        (lateralWorld 4)).effects.filter Effect.isFeedback
      = [Effect.publishFeedback (1 / 5)] := by
  obtain ⟨d, h1, _, h3, h4⟩ := onCycleUpdate_feedback_distance demoConfig ratLibm started
    lateralWorld 3 (lateralWorld 4) (by decide) rfl
    (by
      simp only [current_pose, lateralWorld, worldWith, poseAt, started_eq, sub_self]
      rw [ratLibm_hypot_zero_left]
      exact ⟨abs_nonneg _, by rw [abs_mul_abs_self]; ring⟩)
  have h5 : d * d = (1 / 5) * (1 / 5) := by
    rw [h4]
    norm_num [current_pose, lateralWorld, worldWith, poseAt, started_eq]
  rw [h1, (mul_self_inj h3 (by norm_num : (0 : ℚ) ≤ 1 / 5)).mp h5]

/-- C10 (end-to-end scenario): let the control frequency `f` be positive with
`ceil(2.0 / 0.5 * f) / f ≤ 10` s.  After `onRun` has accepted the command
`{lateral = 2.0, speed = 0.5, time_allowance = 10 s}` with initial pose `p0`,
let the `k`-th step (`k = 0, 1, ...`) see a clock reading within a nanosecond
of `k / f` seconds after the start, a collision checker that answers free, and
a pose displaced from `p0` by exactly `k * 0.5 / f` along a fixed unit vector
`(ux, uy)` (the lateral axis), `hypot` returning the Euclidean norm there.
Then `onRun` returns SUCCEEDED / NONE, the steps `k < ceil(2.0 / 0.5 * f)` all
return RUNNING and the step `k = ceil(2.0 / 0.5 * f)` returns SUCCEEDED. -/
theorem end_to_end_strafe (cfg : Config α) (m : Libm α) (prior : Strafe α) (w0 : World α)
    (p0 : PoseStamped α) (ws : Nat → World α) (ux uy : α)
    (hf : 0 < cfg.cycle_frequency_)
    (hN : (⌈(2 : α) / (1 / 2) * cfg.cycle_frequency_⌉₊ : α) / cfg.cycle_frequency_ ≤ 10)
    (hstart : w0.getCurrentPose prior.initial_pose_ = (true, p0))
    (hu : ux * ux + uy * uy = 1)
    (hfree : ∀ (k : Nat) (p : Pose2D α) (fetch_data : Bool),
      (ws k).isCollisionFree p fetch_data = true)
    (hclock : ∀ k : Nat,
      |(((ws k).now - w0.now : Int) : α) - (k : α) / cfg.cycle_frequency_ * 1000000000| < 1)
    (hpose : ∀ k : Nat, poseAvailable (ws k) = true ∧
      (current_pose (ws k)).pose.position.x
        = p0.pose.position.x + ux * ((k : α) * (1 / 2) / cfg.cycle_frequency_) ∧
      (current_pose (ws k)).pose.position.y
        = p0.pose.position.y + uy * ((k : α) * (1 / 2) / cfg.cycle_frequency_))
    (hE : ∀ k : Nat, IsEuclideanNorm
      (m.hypot (p0.pose.position.x - (current_pose (ws k)).pose.position.x)
        (p0.pose.position.y - (current_pose (ws k)).pose.position.y))
      (p0.pose.position.x - (current_pose (ws k)).pose.position.x)
      (p0.pose.position.y - (current_pose (ws k)).pose.position.y)) :
    (onRun prior w0 demoGoal).result = ⟨Status.SUCCEEDED, StrafeActionResult.NONE⟩ ∧
      (∀ k : Nat, k < ⌈(2 : α) / (1 / 2) * cfg.cycle_frequency_⌉₊ →
        (onCycleUpdate cfg m (stateAfter cfg m (onRun prior w0 demoGoal).state ws k)
          (ws k)).result = ⟨Status.RUNNING, StrafeActionResult.NONE⟩) ∧
      (onCycleUpdate cfg m
        (stateAfter cfg m (onRun prior w0 demoGoal).state ws
          ⌈(2 : α) / (1 / 2) * cfg.cycle_frequency_⌉₊)
        (ws ⌈(2 : α) / (1 / 2) * cfg.cycle_frequency_⌉₊)).result
        = ⟨Status.SUCCEEDED, StrafeActionResult.NONE⟩ := by
  have h4 : (2 : α) / (1 / 2) = 4 := by norm_num
  rw [h4] at hN ⊢
  have hrun : onRun prior w0 (demoGoal : Goal α) =
      { result := ⟨Status.SUCCEEDED, StrafeActionResult.NONE⟩,
        state :=
          { command_x_ := 2, command_speed_ := 1 / 2, command_time_allowance_ := 10000000000,
            end_time_ := w0.now + 10000000000, initial_pose_ := p0,
            feedback_distance_traveled := prior.feedback_distance_traveled },
        effects := [Effect.getCurrentPose] } := by
    simp [onRun, demoGoal, hstart]
  have g1 : (onRun prior w0 (demoGoal : Goal α)).state.command_x_ = 2 := by rw [hrun]
  have g3 : (onRun prior w0 (demoGoal : Goal α)).state.command_time_allowance_
      = 10000000000 := by rw [hrun]
  have g4 : (onRun prior w0 (demoGoal : Goal α)).state.end_time_
      = w0.now + 10000000000 := by rw [hrun]
  have g5 : (onRun prior w0 (demoGoal : Goal α)).state.initial_pose_ = p0 := by rw [hrun]
  -- facts valid at every step up to the last one
  have step : ∀ k : Nat, k ≤ ⌈4 * cfg.cycle_frequency_⌉₊ →
      ¬ timedOut (stateAfter cfg m (onRun prior w0 (demoGoal : Goal α)).state ws k) (ws k) ∧
      (stateAfter cfg m (onRun prior w0 (demoGoal : Goal α)).state ws k).command_x_ = 2 ∧
      distance m (stateAfter cfg m (onRun prior w0 (demoGoal : Goal α)).state ws k)
        (current_pose (ws k)) = (k : α) * (1 / 2) / cfg.cycle_frequency_ := by
    intro k hk
    obtain ⟨f1, _, f3, f4, f5⟩ :=
      stateAfter_fields cfg m (onRun prior w0 (demoGoal : Goal α)).state ws k
    rw [g1] at f1
    rw [g3] at f3
    rw [g4] at f4
    rw [g5] at f5
    refine ⟨?_, f1, ?_⟩
    · unfold timedOut
      rw [f3, f4]
      intro hto
      refine not_past_deadline w0.now (ws k).now ((k : α) / cfg.cycle_frequency_) ?_
        (hclock k) hto.1
      refine le_trans ?_ hN
      exact div_le_div_of_nonneg_right (Nat.cast_le.mpr hk) hf.le
    · have hpk := hpose k
      have hEk := hE k
      apply distance_along m _ _ ux uy _ hu
      · positivity
      · rw [f5]; exact hpk.2.1
      · rw [f5]; exact hpk.2.2
      · simp only [distance, f5]
        exact hEk
  refine ⟨by rw [hrun], ?_, ?_⟩
  · intro k hk
    obtain ⟨s1, s2, s3⟩ := step k hk.le
    have hlt : (k : α) < 4 * cfg.cycle_frequency_ := Nat.lt_ceil.mp hk
    rw [onCycleUpdate_running cfg m _ (ws k) s1 (hpose k).1
      (by
        rw [s2, s3, abs_two, div_lt_iff₀ hf]
        linarith)
      (lookahead_all_free cfg m _ (ws k) (hfree k))]
  · obtain ⟨s1, s2, s3⟩ := step ⌈4 * cfg.cycle_frequency_⌉₊ (le_refl _)
    have hle : 4 * cfg.cycle_frequency_ ≤ (⌈4 * cfg.cycle_frequency_⌉₊ : α) := Nat.le_ceil _
    rw [onCycleUpdate_reached cfg m _ (ws _) s1 (hpose _).1
      (by
        rw [s2, s3, abs_two, le_div_iff₀ hf]
        linarith)]

/-- Witness of C10 at 10 Hz: `ceil(2.0 / 0.5 * 10) = 40`; the steps 0 to 39 of
the end-to-end scenario return RUNNING and step 40 returns SUCCEEDED. -/
theorem end_to_end_strafe_witness :
    (0 : ℚ) < demoConfig.cycle_frequency_ ∧
      ⌈(2 : ℚ) / (1 / 2) * demoConfig.cycle_frequency_⌉₊ = 40 ∧
      (∀ k : Nat, k < 40 →
        (onCycleUpdate demoConfig ratLibm (stateAfter demoConfig ratLibm started lateralWorld k)
          (lateralWorld k)).result = ⟨Status.RUNNING, StrafeActionResult.NONE⟩) ∧
      (onCycleUpdate demoConfig ratLibm (stateAfter demoConfig ratLibm started lateralWorld 40)
        (lateralWorld 40)).result = ⟨Status.SUCCEEDED, StrafeActionResult.NONE⟩ := by
  have hN40 : ⌈(2 : ℚ) / (1 / 2) * demoConfig.cycle_frequency_⌉₊ = 40 := by
    have h : (2 : ℚ) / (1 / 2) * demoConfig.cycle_frequency_ = ((40 : Nat) : ℚ) := by
      norm_num [demoConfig]
    rw [h, Nat.ceil_natCast]
  have hf : (0 : ℚ) < demoConfig.cycle_frequency_ := by norm_num [demoConfig]
  have h := end_to_end_strafe demoConfig ratLibm idle
    (worldWith 0 (poseAt 0 0) (fun _ _ => true)) (poseAt 0 0) lateralWorld 0 1 hf
    (by rw [hN40]; norm_num [demoConfig])
    rfl (by norm_num) (fun _ _ _ => rfl)
    (by
      intro k
      have h0 : (((lateralWorld k).now - (worldWith 0 (poseAt 0 0) (fun _ _ => true)).now
          : Int) : ℚ) - (k : ℚ) / demoConfig.cycle_frequency_ * 1000000000 = 0 := by
        simp only [lateralWorld, worldWith, demoConfig]
        push_cast
        ring
      rw [h0]
      norm_num)
    (by
      intro k
      simp [poseAvailable, current_pose, lateralWorld, worldWith, poseAt, demoConfig])
    (by
      intro k
      simp only [current_pose, lateralWorld, worldWith, poseAt, sub_self]
      rw [ratLibm_hypot_zero_left]
      exact ⟨abs_nonneg _, by rw [abs_mul_abs_self]; ring⟩)
  rw [hN40] at h
  exact ⟨hf, hN40, h.2.1, h.2.2⟩

/-! ## Further facts about the embedding -/

/-- The result and the actions of a step depend on the recorded command,
deadline and initial pose only (not on the feedback value left by an earlier
step). -/
theorem onCycleUpdate_congr (cfg : Config α) (m : Libm α) (s1 s2 : Strafe α) (w : World α)
    (h1 : s1.command_x_ = s2.command_x_) (h2 : s1.command_speed_ = s2.command_speed_)
    (h3 : s1.command_time_allowance_ = s2.command_time_allowance_)
    (h4 : s1.end_time_ = s2.end_time_) (h5 : s1.initial_pose_ = s2.initial_pose_) :
    (onCycleUpdate cfg m s1 w).result = (onCycleUpdate cfg m s2 w).result ∧
      (onCycleUpdate cfg m s1 w).effects = (onCycleUpdate cfg m s2 w).effects := by
  obtain ⟨a1, b1, c1, d1, e1, f1⟩ := s1
  obtain ⟨a2, b2, c2, d2, e2, f2⟩ := s2
  simp only at h1 h2 h3 h4 h5
  subst h1 h2 h3 h4 h5
  unfold onCycleUpdate
  simp only [distance, isCollisionFree, candidate]
  split_ifs <;> exact ⟨rfl, rfl⟩

/-- The members recorded by the start with `reversedGoal`. -/
theorem startedReversed_eq :
    startedReversed =
      { command_x_ := 2, command_speed_ := -(1 / 2), command_time_allowance_ := 10000000000,
        end_time_ := 10000000000, initial_pose_ := poseAt 0 0,
        feedback_distance_traveled := 0 } := by
  simp [startedReversed, onRun, reversedGoal, idle, worldWith]

/-- A step made after any number of earlier steps returns and does what a
first step would in the same world. -/
theorem stateAfter_step (cfg : Config α) (m : Libm α) (self : Strafe α) (ws : Nat → World α)
    (k : Nat) (w : World α) :
    (onCycleUpdate cfg m (stateAfter cfg m self ws k) w).result
        = (onCycleUpdate cfg m self w).result ∧
      (onCycleUpdate cfg m (stateAfter cfg m self ws k) w).effects
        = (onCycleUpdate cfg m self w).effects := by
  obtain ⟨h1, h2, h3, h4, h5⟩ := stateAfter_fields cfg m self ws k
  exact onCycleUpdate_congr cfg m _ _ w h1 h2 h3 h4 h5

/-- What a step that returns RUNNING has gone through. -/
theorem onCycleUpdate_running_inv (cfg : Config α) (m : Libm α) (self : Strafe α) (w : World α)
    (h : (onCycleUpdate cfg m self w).result.status = Status.RUNNING) :
    ¬ timedOut self w ∧ poseAvailable w = true ∧
      distance m self (current_pose w) < |self.command_x_| ∧
      (lookahead cfg m self w).1 = true ∧
      (onCycleUpdate cfg m self w).effects.filter Effect.isFeedback
        = [Effect.publishFeedback (distance m self (current_pose w))] := by
  have hf := lookahead_filter_feedback cfg m self w
  rcases onCycleUpdate_cases cfg m self w with
    ⟨_, e⟩ | ⟨_, _, e⟩ | ⟨_, _, _, e⟩ | ⟨_, _, _, _, e⟩ | ⟨ht, hp, hd, hs, e⟩
  · rw [e] at h; cases h
  · rw [e] at h; cases h
  · rw [e] at h; cases h
  · rw [e] at h; cases h
  · refine ⟨ht, hp, hd, hs, ?_⟩
    rw [e]
    simp [List.filter_cons, List.filter_append, hf, Effect.isFeedback]

/-- A step of the end-to-end scenario made on the lateral axis, less than 2 m
from the initial pose and before the deadline, with a free collision checker:
it returns RUNNING and reports the magnitude of the ordinate. -/
theorem started_step_running (now : Int) (y : ℚ) (hnow : now ≤ 10000000000) (hy : |y| < 2) :
    (onCycleUpdate demoConfig ratLibm started
        (worldWith now (poseAt 0 y) (fun _ _ => true))).result
        = ⟨Status.RUNNING, StrafeActionResult.NONE⟩ ∧
      (onCycleUpdate demoConfig ratLibm started
        (worldWith now (poseAt 0 y) (fun _ _ => true))).effects.filter Effect.isFeedback
        = [Effect.publishFeedback |y|] := by
  have ht : ¬ timedOut started (worldWith now (poseAt 0 y) (fun _ _ => true)) := by
    simp only [timedOut, started_eq, worldWith]
    omega
  have e := onCycleUpdate_running demoConfig ratLibm started
    (worldWith now (poseAt 0 y) (fun _ _ => true)) ht rfl
    (by rw [distance_started, started_eq]; simpa using hy)
    (lookahead_all_free _ _ _ _ (fun _ _ => rfl))
  have hr : (onCycleUpdate demoConfig ratLibm started
      (worldWith now (poseAt 0 y) (fun _ _ => true))).result
      = ⟨Status.RUNNING, StrafeActionResult.NONE⟩ := by rw [e]
  refine ⟨hr, ?_⟩
  have := (onCycleUpdate_running_inv demoConfig ratLibm started _
    (congrArg ResultStatus.status hr)).2.2.2.2
  rw [this, distance_started]

omit [FloorRing α] in
/-- The state and the actions of `onRun` for an on-axis command whose pose
lookup succeeds. -/
theorem onRun_accepted (self : Strafe α) (w : World α) (command : Goal α) (p : PoseStamped α)
    (hx : command.target.x = 0) (hz : command.target.z = 0)
    (hp : w.getCurrentPose self.initial_pose_ = (true, p)) :
    onRun self w command =
      { result := ⟨Status.SUCCEEDED, StrafeActionResult.NONE⟩,
        state :=
          { command_x_ := command.target.y, command_speed_ := command.speed,
            command_time_allowance_ := command.time_allowance,
            end_time_ := w.now + command.time_allowance, initial_pose_ := p,
            feedback_distance_traveled := self.feedback_distance_traveled },
        effects := [Effect.getCurrentPose] } := by
  simp [onRun, hx, hz, hp]

/-! ## Further properties of `onRun` and `onCycleUpdate` -/

/-- C11 (evaluation at the failing input): the command with lateral distance
+2 and speed -1/2 is accepted by `onRun` (SUCCEEDED / NONE, recorded lateral
distance 2 > 0) and the first step, made at the initial pose with a free
collision checker, returns RUNNING and publishes a velocity command whose
lateral component is -1/2 < 0: the sign opposite to the lateral distance. -/
theorem onCycleUpdate_publishes_opposite_sign :
    (onRun idle (worldWith 0 (poseAt 0 0) (fun _ _ => true)) reversedGoal).result
        = ⟨Status.SUCCEEDED, StrafeActionResult.NONE⟩ ∧
      0 < startedReversed.command_x_ ∧
      (onCycleUpdate demoConfig ratLibm startedReversed
        (worldWith 0 (poseAt 0 0) (fun _ _ => true))).result
        = ⟨Status.RUNNING, StrafeActionResult.NONE⟩ ∧
      ∃ c, Effect.publishVel c ∈ (onCycleUpdate demoConfig ratLibm startedReversed
          (worldWith 0 (poseAt 0 0) (fun _ _ => true))).effects ∧
        c.twist.linear.y = -(1 / 2) ∧ c.twist.linear.y < 0 := by
  have hd : distance ratLibm startedReversed
      (current_pose (worldWith 0 (poseAt 0 0) (fun _ _ => true))) = 0 := by
    simp only [distance, current_pose, worldWith, poseAt, startedReversed_eq, sub_self]
    rw [ratLibm_hypot_zero_left, abs_zero]
  have e := onCycleUpdate_running demoConfig ratLibm startedReversed
    (worldWith 0 (poseAt 0 0) (fun _ _ => true)) (by decide) rfl
    (by rw [hd, startedReversed_eq]; norm_num)
    (lookahead_all_free _ _ _ _ (fun _ _ => rfl))
  refine ⟨by simp [onRun, reversedGoal, idle, worldWith], ?_, ?_, ?_⟩
  · rw [startedReversed_eq]; norm_num
  · rw [e]
  · rw [e]
    refine ⟨candidate startedReversed (worldWith 0 (poseAt 0 0) (fun _ _ => true)), ?_, ?_, ?_⟩
    · simp [candidate]
    · simp [candidate, TwistStamped.init, startedReversed_eq]
    · simp [candidate, TwistStamped.init, startedReversed_eq]

/-- C12 (counterexample): after the end-to-end command has been started, step 0
finds no pose and returns FAILED / TF_ERROR; step 1, made 0.1 s later with the
pose available again, returns RUNNING. -/
theorem step_after_failure_returns_running :
    (onCycleUpdate demoConfig ratLibm (stateAfter demoConfig ratLibm started recoveringWorld 0)
        (recoveringWorld 0)).result = ⟨Status.FAILED, StrafeActionResult.TF_ERROR⟩ ∧
      (onCycleUpdate demoConfig ratLibm (stateAfter demoConfig ratLibm started recoveringWorld 1)
        (recoveringWorld 1)).result = ⟨Status.RUNNING, StrafeActionResult.NONE⟩ := by
  constructor
  · have h0 : recoveringWorld 0 = worldNoPose 0 := rfl
    rw [h0]
    show (onCycleUpdate demoConfig ratLibm started (worldNoPose 0)).result = _
    rw [onCycleUpdate_no_pose demoConfig ratLibm started (worldNoPose 0) (by decide) rfl]
  · have h1 : recoveringWorld 1 = worldWith 100000000 (poseAt 0 0) (fun _ _ => true) := rfl
    rw [(stateAfter_step demoConfig ratLibm started recoveringWorld 1 (recoveringWorld 1)).1, h1]
    exact (started_step_running 100000000 0 (by norm_num) (by norm_num)).1

/-- C12 (as amended): only the timeout failure is absorbing.  Once some step
`i` of a run has returned FAILED with reason NONE, every step `j` whose clock
reading is not earlier returns FAILED / NONE again, never RUNNING, whatever the
pose source and the collision checker answer.  For the other terminal results
nothing of the kind holds, because `onCycleUpdate` keeps no record of what it
returned: the result and the actions of every step are those a first step
would have in the same world. -/
theorem onCycleUpdate_timeout_absorbing (cfg : Config α) (m : Libm α) (self : Strafe α)
    (ws : Nat → World α) (i j : Nat)
    (hclock : (ws i).now ≤ (ws j).now)
    (hi : (onCycleUpdate cfg m (stateAfter cfg m self ws i) (ws i)).result
      = ⟨Status.FAILED, StrafeActionResult.NONE⟩) :
    (onCycleUpdate cfg m (stateAfter cfg m self ws j) (ws j)).result
        = ⟨Status.FAILED, StrafeActionResult.NONE⟩ ∧
      (onCycleUpdate cfg m (stateAfter cfg m self ws j) (ws j)).result.status
        ≠ Status.RUNNING ∧
      (∀ k : Nat,
        (onCycleUpdate cfg m (stateAfter cfg m self ws k) (ws k)).result
            = (onCycleUpdate cfg m self (ws k)).result ∧
          (onCycleUpdate cfg m (stateAfter cfg m self ws k) (ws k)).effects
            = (onCycleUpdate cfg m self (ws k)).effects) := by
  have hti : timedOut self (ws i) := by
    rw [(stateAfter_step cfg m self ws i (ws i)).1] at hi
    rcases onCycleUpdate_cases cfg m self (ws i) with
      ⟨h, _⟩ | ⟨_, _, e⟩ | ⟨_, _, _, e⟩ | ⟨_, _, _, _, e⟩ | ⟨_, _, _, _, e⟩
    · exact h
    · rw [e] at hi; cases hi
    · rw [e] at hi; cases hi
    · rw [e] at hi; cases hi
    · rw [e] at hi; cases hi
  have htj : timedOut self (ws j) := ⟨lt_of_lt_of_le hti.1 hclock, hti.2⟩
  have hj : (onCycleUpdate cfg m (stateAfter cfg m self ws j) (ws j)).result
      = ⟨Status.FAILED, StrafeActionResult.NONE⟩ := by
    rw [(stateAfter_step cfg m self ws j (ws j)).1, onCycleUpdate_timeout cfg m self (ws j) htj]
  refine ⟨hj, ?_, fun k => stateAfter_step cfg m self ws k (ws k)⟩
  rw [hj]
  decide

/-- Witness of C12 as amended: in the end-to-end scenario the step made 11 s
after the start times out, and so does the step made 12 s after the start. -/
theorem onCycleUpdate_timeout_absorbing_witness :
    (lateralWorld 110).now ≤ (lateralWorld 120).now ∧
      (onCycleUpdate demoConfig ratLibm (stateAfter demoConfig ratLibm started lateralWorld 110)
        (lateralWorld 110)).result = ⟨Status.FAILED, StrafeActionResult.NONE⟩ ∧
      (onCycleUpdate demoConfig ratLibm (stateAfter demoConfig ratLibm started lateralWorld 120)
        (lateralWorld 120)).result = ⟨Status.FAILED, StrafeActionResult.NONE⟩ := by
  have h110 : (onCycleUpdate demoConfig ratLibm
      (stateAfter demoConfig ratLibm started lateralWorld 110) (lateralWorld 110)).result
      = ⟨Status.FAILED, StrafeActionResult.NONE⟩ := by
    rw [(stateAfter_step demoConfig ratLibm started lateralWorld 110 (lateralWorld 110)).1,
      onCycleUpdate_timeout demoConfig ratLibm started (lateralWorld 110) (by decide)]
  exact ⟨by decide, h110,
    (onCycleUpdate_timeout_absorbing demoConfig ratLibm started lateralWorld 110 120
      (by decide) h110).1⟩

/-- C13: for an on-axis command, a clock reading and a resolved pose `p`, the
lateral distance, speed, time allowance, deadline and initial pose recorded by
a successful `onRun` are the same whatever the members were before; therefore
every later step returns the same result and performs the same actions,
whatever command was recorded earlier. -/
theorem onRun_supersedes (cfg : Config α) (m : Libm α) (prior1 prior2 : Strafe α)
    (w : World α) (command : Goal α) (p : PoseStamped α)
    (hx : command.target.x = 0) (hz : command.target.z = 0)
    (hp1 : w.getCurrentPose prior1.initial_pose_ = (true, p))
    (hp2 : w.getCurrentPose prior2.initial_pose_ = (true, p)) :
    (onRun prior1 w command).result = ⟨Status.SUCCEEDED, StrafeActionResult.NONE⟩ ∧
      (onRun prior2 w command).result = ⟨Status.SUCCEEDED, StrafeActionResult.NONE⟩ ∧
      (onRun prior1 w command).state.command_x_ = (onRun prior2 w command).state.command_x_ ∧
      (onRun prior1 w command).state.command_speed_
        = (onRun prior2 w command).state.command_speed_ ∧
      (onRun prior1 w command).state.command_time_allowance_
        = (onRun prior2 w command).state.command_time_allowance_ ∧
      (onRun prior1 w command).state.end_time_ = (onRun prior2 w command).state.end_time_ ∧
      (onRun prior1 w command).state.initial_pose_
        = (onRun prior2 w command).state.initial_pose_ ∧
      (∀ (ws : Nat → World α) (k : Nat),
        (onCycleUpdate cfg m (stateAfter cfg m (onRun prior1 w command).state ws k)
            (ws k)).result
          = (onCycleUpdate cfg m (stateAfter cfg m (onRun prior2 w command).state ws k)
            (ws k)).result ∧
        (onCycleUpdate cfg m (stateAfter cfg m (onRun prior1 w command).state ws k)
            (ws k)).effects
          = (onCycleUpdate cfg m (stateAfter cfg m (onRun prior2 w command).state ws k)
            (ws k)).effects) := by
  have e1 := onRun_accepted prior1 w command p hx hz hp1
  have e2 := onRun_accepted prior2 w command p hx hz hp2
  refine ⟨by rw [e1], by rw [e2], by rw [e1, e2], by rw [e1, e2], by rw [e1, e2],
    by rw [e1, e2], by rw [e1, e2], ?_⟩
  intro ws k
  have a1 := stateAfter_step cfg m (onRun prior1 w command).state ws k (ws k)
  have a2 := stateAfter_step cfg m (onRun prior2 w command).state ws k (ws k)
  have c := onCycleUpdate_congr cfg m (onRun prior1 w command).state
    (onRun prior2 w command).state (ws k) (by rw [e1, e2]) (by rw [e1, e2]) (by rw [e1, e2])
    (by rw [e1, e2]) (by rw [e1, e2])
  exact ⟨a1.1.trans (c.1.trans a2.1.symm), a1.2.trans (c.2.trans a2.2.symm)⟩

/-- Witness of C13: the end-to-end command started from the idle members and
started again while the reversed command is recorded gives the same deadline
and the same first step. -/
theorem onRun_supersedes_witness :
    (onRun idle (worldWith 0 (poseAt 0 0) (fun _ _ => true)) (demoGoal : Goal ℚ)).state.end_time_
        = (onRun startedReversed (worldWith 0 (poseAt 0 0) (fun _ _ => true))
          (demoGoal : Goal ℚ)).state.end_time_ ∧
      (onCycleUpdate demoConfig ratLibm
          (stateAfter demoConfig ratLibm
            (onRun idle (worldWith 0 (poseAt 0 0) (fun _ _ => true))
              (demoGoal : Goal ℚ)).state lateralWorld 0) (lateralWorld 0)).effects
        = (onCycleUpdate demoConfig ratLibm
          (stateAfter demoConfig ratLibm
            (onRun startedReversed (worldWith 0 (poseAt 0 0) (fun _ _ => true))
              (demoGoal : Goal ℚ)).state lateralWorld 0) (lateralWorld 0)).effects :=
  ⟨(onRun_supersedes demoConfig ratLibm idle startedReversed
      (worldWith 0 (poseAt 0 0) (fun _ _ => true)) demoGoal (poseAt 0 0) rfl rfl rfl
      rfl).2.2.2.2.2.1,
    ((onRun_supersedes demoConfig ratLibm idle startedReversed
      (worldWith 0 (poseAt 0 0) (fun _ _ => true)) demoGoal (poseAt 0 0) rfl rfl rfl
      rfl).2.2.2.2.2.2.2 lateralWorld 0).2⟩

/-- C14 (counterexample): in a run of the end-to-end command in which the robot
is 1 m from its initial pose at step 0 and 0.5 m from it at step 1, both steps
return RUNNING, the first reports the distance 1 and the second the smaller
distance 1/2. -/
theorem feedback_decreases_when_robot_moves_back :
    (onCycleUpdate demoConfig ratLibm (stateAfter demoConfig ratLibm started retreatWorld 0)
        (retreatWorld 0)).result = ⟨Status.RUNNING, StrafeActionResult.NONE⟩ ∧
      (onCycleUpdate demoConfig ratLibm (stateAfter demoConfig ratLibm started retreatWorld 1)
        (retreatWorld 1)).result = ⟨Status.RUNNING, StrafeActionResult.NONE⟩ ∧
      (onCycleUpdate demoConfig ratLibm (stateAfter demoConfig ratLibm started retreatWorld 0)
        (retreatWorld 0)).effects.filter Effect.isFeedback = [Effect.publishFeedback 1] ∧
      (onCycleUpdate demoConfig ratLibm (stateAfter demoConfig ratLibm started retreatWorld 1)
        (retreatWorld 1)).effects.filter Effect.isFeedback
        = [Effect.publishFeedback (1 / 2)] ∧
      ¬ ((1 : ℚ) ≤ 1 / 2) := by
  have h0 : retreatWorld 0 = worldWith 0 (poseAt 0 1) (fun _ _ => true) := rfl
  have h1 : retreatWorld 1 = worldWith 100000000 (poseAt 0 (1 / 2)) (fun _ _ => true) := rfl
  have s0 := started_step_running 0 1 (by norm_num) (by norm_num)
  have s1 := started_step_running 100000000 (1 / 2) (by norm_num) (by norm_num [abs_lt])
  rw [abs_one] at s0
  rw [abs_of_pos (by norm_num : (0 : ℚ) < 1 / 2)] at s1
  have a0 := stateAfter_step demoConfig ratLibm started retreatWorld 0 (retreatWorld 0)
  have a1 := stateAfter_step demoConfig ratLibm started retreatWorld 1 (retreatWorld 1)
  rw [a0.1, a0.2, a1.1, a1.2, h0, h1]
  exact ⟨s0.1, s1.1, s0.2, s1.2, by norm_num⟩

/-- C14 (as amended): for two successive steps that both return RUNNING, with
`hypot` returning the Euclidean norm at both poses, each step reports its
distance from the recorded initial pose, and the later report is at least the
earlier one if and only if the later pose is at least as far from the initial
pose as the earlier pose (compared through the squared displacements). -/
theorem onCycleUpdate_feedback_order (cfg : Config α) (m : Libm α) (self : Strafe α)
    (ws : Nat → World α) (k : Nat)
    (hr1 : (onCycleUpdate cfg m (stateAfter cfg m self ws k) (ws k)).result.status
      = Status.RUNNING)
    (hr2 : (onCycleUpdate cfg m (stateAfter cfg m self ws (k + 1)) (ws (k + 1))).result.status
      = Status.RUNNING)
    (hE1 : IsEuclideanNorm (distance m self (current_pose (ws k)))
      (self.initial_pose_.pose.position.x - (current_pose (ws k)).pose.position.x)
      (self.initial_pose_.pose.position.y - (current_pose (ws k)).pose.position.y))
    (hE2 : IsEuclideanNorm (distance m self (current_pose (ws (k + 1))))
      (self.initial_pose_.pose.position.x - (current_pose (ws (k + 1))).pose.position.x)
      (self.initial_pose_.pose.position.y - (current_pose (ws (k + 1))).pose.position.y)) :
    ∃ d1 d2 : α,
      (onCycleUpdate cfg m (stateAfter cfg m self ws k) (ws k)).effects.filter
          Effect.isFeedback = [Effect.publishFeedback d1] ∧
        (onCycleUpdate cfg m (stateAfter cfg m self ws (k + 1)) (ws (k + 1))).effects.filter
          Effect.isFeedback = [Effect.publishFeedback d2] ∧
        (d1 ≤ d2 ↔
          (self.initial_pose_.pose.position.x - (current_pose (ws k)).pose.position.x) *
              (self.initial_pose_.pose.position.x - (current_pose (ws k)).pose.position.x) +
            (self.initial_pose_.pose.position.y - (current_pose (ws k)).pose.position.y) *
              (self.initial_pose_.pose.position.y - (current_pose (ws k)).pose.position.y) ≤
          (self.initial_pose_.pose.position.x - (current_pose (ws (k + 1))).pose.position.x) *
              (self.initial_pose_.pose.position.x - (current_pose (ws (k + 1))).pose.position.x) +
            (self.initial_pose_.pose.position.y - (current_pose (ws (k + 1))).pose.position.y) *
              (self.initial_pose_.pose.position.y
                - (current_pose (ws (k + 1))).pose.position.y)) := by
  have a1 := stateAfter_step cfg m self ws k (ws k)
  have a2 := stateAfter_step cfg m self ws (k + 1) (ws (k + 1))
  rw [a1.1] at hr1
  rw [a2.1] at hr2
  have f1 := (onCycleUpdate_running_inv cfg m self (ws k) hr1).2.2.2.2
  have f2 := (onCycleUpdate_running_inv cfg m self (ws (k + 1)) hr2).2.2.2.2
  refine ⟨distance m self (current_pose (ws k)), distance m self (current_pose (ws (k + 1))),
    by rw [a1.2, f1], by rw [a2.2, f2], ?_⟩
  rw [← hE1.2, ← hE2.2]
  exact (mul_self_le_mul_self_iff hE1.1 hE2.1)

/-- Witness of C14 as amended: steps 3 and 4 of the end-to-end scenario both
return RUNNING and the robot moves away from its initial pose between them. -/
theorem onCycleUpdate_feedback_order_witness :
    (onCycleUpdate demoConfig ratLibm (stateAfter demoConfig ratLibm started lateralWorld 3)
        (lateralWorld 3)).result.status = Status.RUNNING ∧
      (onCycleUpdate demoConfig ratLibm (stateAfter demoConfig ratLibm started lateralWorld 4)
        (lateralWorld 4)).result.status = Status.RUNNING ∧
      ∃ d1 d2 : ℚ,
        (onCycleUpdate demoConfig ratLibm (stateAfter demoConfig ratLibm started lateralWorld 3)
          (lateralWorld 3)).effects.filter Effect.isFeedback = [Effect.publishFeedback d1] ∧
        (onCycleUpdate demoConfig ratLibm (stateAfter demoConfig ratLibm started lateralWorld 4)
          (lateralWorld 4)).effects.filter Effect.isFeedback = [Effect.publishFeedback d2] ∧
        d1 ≤ d2 := by
  have r3 : (onCycleUpdate demoConfig ratLibm
      (stateAfter demoConfig ratLibm started lateralWorld 3) (lateralWorld 3)).result.status
      = Status.RUNNING := by
    rw [(stateAfter_step demoConfig ratLibm started lateralWorld 3 (lateralWorld 3)).1]
    exact congrArg ResultStatus.status
      (started_step_running _ _ (by norm_num) (by norm_num [abs_lt])).1
  have r4 : (onCycleUpdate demoConfig ratLibm
      (stateAfter demoConfig ratLibm started lateralWorld 4) (lateralWorld 4)).result.status
      = Status.RUNNING := by
    rw [(stateAfter_step demoConfig ratLibm started lateralWorld 4 (lateralWorld 4)).1]
    exact congrArg ResultStatus.status
      (started_step_running _ _ (by norm_num) (by norm_num [abs_lt])).1
  have hE : ∀ k : Nat, IsEuclideanNorm (distance ratLibm started (current_pose (lateralWorld k)))
      (started.initial_pose_.pose.position.x - (current_pose (lateralWorld k)).pose.position.x)
      (started.initial_pose_.pose.position.y
        - (current_pose (lateralWorld k)).pose.position.y) := by
    intro k
    simp only [distance, current_pose, lateralWorld, worldWith, poseAt, started_eq, sub_self]
    rw [ratLibm_hypot_zero_left]
    exact ⟨abs_nonneg _, by rw [abs_mul_abs_self]; ring⟩
  obtain ⟨d1, d2, h1, h2, h3⟩ := onCycleUpdate_feedback_order demoConfig ratLibm started
    lateralWorld 3 r3 r4 (hE 3) (hE 4)
  refine ⟨r3, r4, d1, d2, h1, h2, h3.mpr ?_⟩
  norm_num [current_pose, lateralWorld, worldWith, poseAt, started_eq]

/-! ## Properties of `isCollisionFree` -/

omit [FloorRing α] in
/-- When the loop of `isCollisionFree` reports not-free, some pass `k` met a
not-free answer, no early exit triggered up to it and all earlier answers were
free. -/
theorem simulate_false_inv (cfg : Config α) (m : Libm α) (w : World α) (cmd_vel : TwistStamped α)
    (init_pose : Pose2D α) (diff_dist : α) (remaining : Nat) :
    ∀ (cycle_count : Nat) (fetch_data : Bool),
      (simulate cfg m w cmd_vel init_pose diff_dist remaining cycle_count fetch_data).1
        = false →
      ∃ k : Nat, k < remaining ∧
        (∀ j ≤ k, ¬ (diff_dist - |sim_position_change cfg cmd_vel (cycle_count + j)| ≤ 0)) ∧
        (∀ j < k, w.isCollisionFree
          (sim_pose m init_pose (sim_position_change cfg cmd_vel (cycle_count + j)))
          (if j = 0 then fetch_data else false) = true) ∧
        w.isCollisionFree
          (sim_pose m init_pose (sim_position_change cfg cmd_vel (cycle_count + k)))
          (if k = 0 then fetch_data else false) = false := by
  induction remaining with
  | zero => intro c f h; simp [simulate] at h
  | succ n ih =>
    intro c f h
    unfold simulate at h
    by_cases h1 : diff_dist - |sim_position_change cfg cmd_vel c| ≤ 0
    · simp [h1] at h
    · by_cases h2 : w.isCollisionFree
          (sim_pose m init_pose (sim_position_change cfg cmd_vel c)) f = true
      · simp only [h1, if_false, h2, Bool.not_true] at h
        obtain ⟨k, hk, hexit, hfree, hcol⟩ := ih (c + 1) false h
        refine ⟨k + 1, by omega, ?_, ?_, ?_⟩
        · intro j hj
          rcases Nat.eq_zero_or_pos j with h0 | h0
          · rw [h0, Nat.add_zero]; exact h1
          · obtain ⟨i, rfl⟩ := Nat.exists_eq_succ_of_ne_zero (Nat.pos_iff_ne_zero.mp h0)
            have := hexit i (by omega)
            rwa [show c + 1 + i = c + (i + 1) by omega] at this
        · intro j hj
          rcases Nat.eq_zero_or_pos j with h0 | h0
          · rw [h0, Nat.add_zero]; simpa using h2
          · obtain ⟨i, rfl⟩ := Nat.exists_eq_succ_of_ne_zero (Nat.pos_iff_ne_zero.mp h0)
            have := hfree i (by omega)
            rw [show c + 1 + i = c + (i + 1) by omega] at this
            simpa using this
        · rw [show c + 1 + k = c + (k + 1) by omega] at hcol
          simpa using hcol
      · rw [Bool.not_eq_true] at h2
        refine ⟨0, by omega, ?_, ?_, ?_⟩
        · intro j hj
          rw [Nat.le_zero.mp hj, Nat.add_zero]; exact h1
        · intro j hj; omega
        · simpa using h2

/-- C15: `isCollisionFree` returns false if and only if there is a pass `k`
below the horizon (the loop bound `max_cycle_count`) such that the early-exit
test `remaining - |lateral velocity * j / cycle_frequency| ≤ 0` is false at
every pass `j ≤ k`, the collision checker reports free at the projected poses
of all passes `j < k` and not-free at the projected pose of pass `k`, where
`remaining = |lateral_distance| - distance`; in every other case it returns
true.  The checker is asked with the flag the code passes (fresh snapshot at
pass 0 only). -/
theorem isCollisionFree_false_iff (cfg : Config α) (m : Libm α) (self : Strafe α) (w : World α)
    (dist : α) (cmd_vel : TwistStamped α) (pose : Pose2D α) :
    ((isCollisionFree cfg m self w dist cmd_vel pose).1 = false ↔
        ∃ k : Nat, (k : Int) < max_cycle_count cfg m ∧
          (∀ j ≤ k, ¬ (|self.command_x_| - dist
            - |cmd_vel.twist.linear.y * (j : α) / cfg.cycle_frequency_| ≤ 0)) ∧
          (∀ j < k, w.isCollisionFree
            (sim_pose m pose (sim_position_change cfg cmd_vel j)) (decide (j = 0)) = true) ∧
          w.isCollisionFree
            (sim_pose m pose (sim_position_change cfg cmd_vel k)) (decide (k = 0)) = false) ∧
      ((isCollisionFree cfg m self w dist cmd_vel pose).1 = true ↔
        ¬ ∃ k : Nat, (k : Int) < max_cycle_count cfg m ∧
          (∀ j ≤ k, ¬ (|self.command_x_| - dist
            - |cmd_vel.twist.linear.y * (j : α) / cfg.cycle_frequency_| ≤ 0)) ∧
          (∀ j < k, w.isCollisionFree
            (sim_pose m pose (sim_position_change cfg cmd_vel j)) (decide (j = 0)) = true) ∧
          w.isCollisionFree
            (sim_pose m pose (sim_position_change cfg cmd_vel k)) (decide (k = 0)) = false) := by
  have hflag : ∀ k : Nat, (if k = 0 then true else false) = decide (k = 0) := by
    intro k
    by_cases h0 : k = 0 <;> simp [h0]
  have key : (isCollisionFree cfg m self w dist cmd_vel pose).1 = false ↔
      ∃ k : Nat, (k : Int) < max_cycle_count cfg m ∧
        (∀ j ≤ k, ¬ (|self.command_x_| - dist
          - |cmd_vel.twist.linear.y * (j : α) / cfg.cycle_frequency_| ≤ 0)) ∧
        (∀ j < k, w.isCollisionFree
          (sim_pose m pose (sim_position_change cfg cmd_vel j)) (decide (j = 0)) = true) ∧
        w.isCollisionFree
          (sim_pose m pose (sim_position_change cfg cmd_vel k)) (decide (k = 0)) = false := by
    unfold isCollisionFree
    constructor
    · intro h
      obtain ⟨k, hk, hexit, hfree, hcol⟩ := simulate_false_inv _ _ _ _ _ _ _ 0 true h
      refine ⟨k, by omega, ?_, ?_, ?_⟩
      · intro j hj
        have := hexit j hj
        simpa [sim_position_change, mul_div_assoc] using this
      · intro j hj
        have := hfree j hj
        rw [hflag] at this
        simpa using this
      · rw [hflag] at hcol
        simpa using hcol
    · rintro ⟨k, hk, hexit, _, hcol⟩
      apply simulate_veto _ _ _ _ _ _ k 0 true _ (by omega)
      · intro j hj
        have := hexit j hj
        simpa [sim_position_change, mul_div_assoc] using this
      · rw [hflag]
        simpa using hcol
  refine ⟨key, ?_⟩
  rw [← key]
  cases (isCollisionFree cfg m self w dist cmd_vel pose).1 <;> simp

omit [FloorRing α] in
/-- With a collision checker that answers free everywhere and no early exit,
the loop of `isCollisionFree` queries once per pass. -/
theorem simulate_count (cfg : Config α) (m : Libm α) (w : World α) (cmd_vel : TwistStamped α)
    (init_pose : Pose2D α) (diff_dist : α) (hfree : ∀ p f, w.isCollisionFree p f = true)
    (remaining : Nat) :
    ∀ (cycle_count : Nat) (fetch_data : Bool),
      (∀ j < remaining,
        ¬ (diff_dist - |sim_position_change cfg cmd_vel (cycle_count + j)| ≤ 0)) →
      (simulate cfg m w cmd_vel init_pose diff_dist remaining cycle_count fetch_data).2.length
        = remaining := by
  induction remaining with
  | zero => intro c f _; rfl
  | succ n ih =>
    intro c f hexit
    have h0 := hexit 0 (Nat.succ_pos n)
    rw [Nat.add_zero] at h0
    have hrest := ih (c + 1) false (by
      intro j hj
      have := hexit (j + 1) (by omega)
      rwa [show c + (j + 1) = c + 1 + j by omega] at this)
    unfold simulate
    simp [h0, hfree, hrest]

/-- With a collision checker that answers free everywhere and a remaining
distance that no simulated pass exhausts, `isCollisionFree` reports free after
exactly `max_cycle_count` queries. -/
theorem isCollisionFree_count (cfg : Config α) (m : Libm α) (self : Strafe α) (w : World α)
    (dist : α) (cmd_vel : TwistStamped α) (pose : Pose2D α)
    (hfree : ∀ p f, w.isCollisionFree p f = true)
    (hrem : ∀ j : Nat, (j : Int) < max_cycle_count cfg m →
      ¬ (|self.command_x_| - dist - |sim_position_change cfg cmd_vel j| ≤ 0)) :
    (isCollisionFree cfg m self w dist cmd_vel pose).1 = true ∧
      (isCollisionFree cfg m self w dist cmd_vel pose).2.length = (max_cycle_count cfg m).toNat ∧
      ∀ e ∈ (isCollisionFree cfg m self w dist cmd_vel pose).2, e.isCollisionQuery = true := by
  unfold isCollisionFree
  refine ⟨simulate_all_free _ _ _ _ _ _ hfree _ _ _, ?_, simulate_effects _ _ _ _ _ _ _ _ _⟩
  apply simulate_count _ _ _ _ _ _ hfree
  intro j hj
  rw [Nat.zero_add]
  exact hrem j (by omega)

/-- The horizon of the 0.26 s configuration is 2 passes. -/
theorem max_cycle_count_short : max_cycle_count shortConfig ratLibm = 2 := by
  simp only [max_cycle_count, static_cast_int, shortConfig, ratLibm]
  norm_num

/-- C16 (counterexample): at 10 Hz with a look-ahead of 0.26 s the product is
2.6, whose nearest integer is 3; with a collision checker that answers free
everywhere and a remaining distance of 2 m that the three first simulated
offsets (0, 0.05, 0.1 m) do not exhaust, `isCollisionFree` reports free after
2 queries, not 3. -/
theorem horizon_is_not_rounded :
    round (shortConfig.cycle_frequency_ * shortConfig.simulate_ahead_time_) = 3 ∧
      (∀ j : Nat, j < 3 →
        ¬ (|started.command_x_| - 0
          - |(candidate started (worldWith 0 (poseAt 0 0) (fun _ _ => true))).twist.linear.y
              * (j : ℚ) / shortConfig.cycle_frequency_| ≤ 0)) ∧
      (isCollisionFree shortConfig ratLibm started (worldWith 0 (poseAt 0 0) (fun _ _ => true)) 0
        (candidate started (worldWith 0 (poseAt 0 0) (fun _ _ => true)))
        (pose2d ratLibm (poseAt 0 0))).1 = true ∧
      (isCollisionFree shortConfig ratLibm started (worldWith 0 (poseAt 0 0) (fun _ _ => true)) 0
        (candidate started (worldWith 0 (poseAt 0 0) (fun _ _ => true)))
        (pose2d ratLibm (poseAt 0 0))).2.length = 2 := by
  have hrem : ∀ j : Nat, j < 3 →
      ¬ (|started.command_x_| - 0
        - |(candidate started (worldWith 0 (poseAt 0 0) (fun _ _ => true))).twist.linear.y
            * (j : ℚ) / shortConfig.cycle_frequency_| ≤ 0) := by
    intro j hj
    simp only [candidate, TwistStamped.init, started_eq, shortConfig]
    interval_cases j <;> norm_num [abs_lt]
  have h := isCollisionFree_count shortConfig ratLibm started
    (worldWith 0 (poseAt 0 0) (fun _ _ => true)) 0
    (candidate started (worldWith 0 (poseAt 0 0) (fun _ _ => true)))
    (pose2d ratLibm (poseAt 0 0)) (fun _ _ => rfl)
    (by
      intro j hj
      rw [max_cycle_count_short] at hj
      have := hrem j (by omega)
      simpa [sim_position_change, mul_div_assoc] using this)
  rw [max_cycle_count_short] at h
  refine ⟨?_, hrem, h.1, h.2.1⟩
  rw [round_eq]
  simp only [shortConfig]
  exact Int.floor_eq_iff.mpr ⟨by norm_num, by norm_num⟩

/-- C16 (as amended): the number of passes the simulator considers is the
integer part of the product `cycle_frequency * simulate_ahead_time` as computed
at line 110 (the product truncated by `static_cast<int>`, not rounded to the
nearest integer), for every configuration whose computed product lies in the
range `0 ≤ product < 2^31` in which the conversion to `int` is defined: with a
collision checker that answers free everywhere and a remaining distance that no
pass below that number exhausts, `isCollisionFree` reports free after exactly
that many collision queries. -/
theorem isCollisionFree_query_count (cfg : Config α) (m : Libm α) (self : Strafe α)
    (w : World α) (dist : α) (cmd_vel : TwistStamped α) (pose : Pose2D α)
    (hlo : 0 ≤ m.mul cfg.cycle_frequency_ cfg.simulate_ahead_time_)
    (hhi : m.mul cfg.cycle_frequency_ cfg.simulate_ahead_time_ < 2147483648)
    (hfree : ∀ p f, w.isCollisionFree p f = true)
    (hrem : ∀ j : Nat, j < ⌊m.mul cfg.cycle_frequency_ cfg.simulate_ahead_time_⌋₊ →
      ¬ (|self.command_x_| - dist
        - |cmd_vel.twist.linear.y * (j : α) / cfg.cycle_frequency_| ≤ 0)) :
    max_cycle_count cfg m = ⌊m.mul cfg.cycle_frequency_ cfg.simulate_ahead_time_⌋ ∧
      (isCollisionFree cfg m self w dist cmd_vel pose).1 = true ∧
      (isCollisionFree cfg m self w dist cmd_vel pose).2.length
        = ⌊m.mul cfg.cycle_frequency_ cfg.simulate_ahead_time_⌋₊ ∧
      ((isCollisionFree cfg m self w dist cmd_vel pose).2.filter
        Effect.isCollisionQuery).length
        = ⌊m.mul cfg.cycle_frequency_ cfg.simulate_ahead_time_⌋₊ := by
  have hrange : (-2147483649 : α) < m.mul cfg.cycle_frequency_ cfg.simulate_ahead_time_ ∧
      m.mul cfg.cycle_frequency_ cfg.simulate_ahead_time_ < 2147483648 :=
    ⟨lt_of_lt_of_le (by norm_num) hlo, hhi⟩
  have hmax : max_cycle_count cfg m
      = ⌊m.mul cfg.cycle_frequency_ cfg.simulate_ahead_time_⌋ := by
    simp only [max_cycle_count, static_cast_int, hrange, hlo, and_self, if_true]
  have hnat : (max_cycle_count cfg m).toNat
      = ⌊m.mul cfg.cycle_frequency_ cfg.simulate_ahead_time_⌋₊ := by
    rw [hmax, Int.floor_toNat]
  have h := isCollisionFree_count cfg m self w dist cmd_vel pose hfree (by
    intro j hj
    have hj2 : j < ⌊m.mul cfg.cycle_frequency_ cfg.simulate_ahead_time_⌋₊ := by
      rw [← hnat]; omega
    have := hrem j hj2
    simpa [sim_position_change, mul_div_assoc] using this)
  rw [hnat] at h
  refine ⟨hmax, h.1, h.2.1, ?_⟩
  rw [List.filter_eq_self.mpr h.2.2]
  exact h.2.1

/-- Witness of C16 as amended at 10 Hz and 0.26 s: the product 2.6 lies in the
range, its integer part is 2 and the free look-ahead makes 2 queries. -/
theorem isCollisionFree_query_count_witness :
    (0 : ℚ) ≤ ratLibm.mul shortConfig.cycle_frequency_ shortConfig.simulate_ahead_time_ ∧
      ratLibm.mul shortConfig.cycle_frequency_ shortConfig.simulate_ahead_time_ < 2147483648 ∧
      ⌊ratLibm.mul shortConfig.cycle_frequency_ shortConfig.simulate_ahead_time_⌋₊ = 2 ∧
      (isCollisionFree shortConfig ratLibm started (worldWith 0 (poseAt 0 0) (fun _ _ => true)) 0
        (candidate started (worldWith 0 (poseAt 0 0) (fun _ _ => true)))
        (pose2d ratLibm (poseAt 0 0))).2.length = 2 := by
  have hp : ratLibm.mul shortConfig.cycle_frequency_ shortConfig.simulate_ahead_time_
      = 13 / 5 := by
    norm_num [ratLibm, shortConfig]
  have h2 : ⌊ratLibm.mul shortConfig.cycle_frequency_ shortConfig.simulate_ahead_time_⌋₊
      = 2 := by
    rw [hp]
    exact (Nat.floor_eq_iff (by norm_num)).mpr ⟨by norm_num, by norm_num⟩
  have h := isCollisionFree_query_count shortConfig ratLibm started
    (worldWith 0 (poseAt 0 0) (fun _ _ => true)) 0
    (candidate started (worldWith 0 (poseAt 0 0) (fun _ _ => true)))
    (pose2d ratLibm (poseAt 0 0)) (by rw [hp]; norm_num) (by rw [hp]; norm_num)
    (fun _ _ => rfl)
    (by
      intro j hj
      rw [h2] at hj
      simp only [candidate, TwistStamped.init, started_eq, shortConfig]
      interval_cases j <;> norm_num [abs_lt])
  rw [h2] at h
  exact ⟨by rw [hp]; norm_num, by rw [hp]; norm_num, h2, h.2.2.1⟩

omit [FloorRing α] in
/-- Every query of the loop of `isCollisionFree` is made at the pose computed
at lines 115-117 for some pass; its heading is the heading of the pose the
function was called with. -/
theorem simulate_queries (cfg : Config α) (m : Libm α) (w : World α) (cmd_vel : TwistStamped α)
    (init_pose : Pose2D α) (diff_dist : α) (remaining : Nat) :
    ∀ (cycle_count : Nat) (fetch_data : Bool),
      ∀ e ∈ (simulate cfg m w cmd_vel init_pose diff_dist remaining cycle_count fetch_data).2,
        ∃ (k : Nat) (f : Bool), cycle_count ≤ k ∧ k < cycle_count + remaining ∧
          e = Effect.collisionQuery
            { x := init_pose.x + sim_position_change cfg cmd_vel k * m.cos init_pose.theta
              y := init_pose.y + sim_position_change cfg cmd_vel k * m.sin init_pose.theta
              theta := init_pose.theta } f := by
  induction remaining with
  | zero => intro c f e he; simp [simulate] at he
  | succ n ih =>
    intro c f e he
    unfold simulate at he
    by_cases h1 : diff_dist - |sim_position_change cfg cmd_vel c| ≤ 0
    · simp [h1] at he
    · by_cases h2 : w.isCollisionFree (sim_pose m init_pose (sim_position_change cfg cmd_vel c)) f
          = true
      · simp only [h1, if_false, h2, Bool.not_true] at he
        rcases List.mem_cons.mp he with he | he
        · exact ⟨c, f, le_refl c, by omega, he⟩
        · obtain ⟨k, g, hk1, hk2, hk3⟩ := ih _ _ e he
          exact ⟨k, g, by omega, by omega, hk3⟩
      · rw [Bool.not_eq_true] at h2
        simp only [h1, if_false, h2, Bool.not_false, if_true] at he
        exact ⟨c, f, le_refl c, by omega, List.mem_singleton.mp he⟩

/-- The collision queries of the first step of the end-to-end command at the
origin with the 0.26 s look-ahead and a free collision checker. -/
theorem lookahead_short :
    (lookahead shortConfig ratLibm started (worldWith 0 (poseAt 0 0) (fun _ _ => true))).2
      = [Effect.collisionQuery ⟨0, 0, 0⟩ true, Effect.collisionQuery ⟨1 / 20, 0, 0⟩ false] := by
  simp only [lookahead, isCollisionFree, max_cycle_count_short]
  rw [distance_started]
  simp only [started_eq, candidate, TwistStamped.init, pose2d, current_pose, worldWith, poseAt,
    ratLibm, shortConfig]
  norm_num [simulate, sim_position_change, sim_pose, le_abs]

/-- C17 (evaluation at the failing input): in the first step of the end-to-end
command (robot at the origin with heading 0, lateral speed 0.5 m/s, 10 Hz) the
pose handed to the collision checker at pass 1, where the offset is
`d = 0.5 * 1 / 10 = 0.05`, is `(0.05, 0, 0)`: the current pose moved along its
heading.  The laterally displaced pose `(x - d sin θ, y + d cos θ) = (0, 0.05)`
is not queried. -/
theorem simulator_projects_along_heading :
    (onCycleUpdate shortConfig ratLibm started
        (worldWith 0 (poseAt 0 0) (fun _ _ => true))).effects.filter Effect.isCollisionQuery
      = [Effect.collisionQuery ⟨0, 0, 0⟩ true, Effect.collisionQuery ⟨1 / 20, 0, 0⟩ false] ∧
      sim_position_change shortConfig
        (candidate started (worldWith 0 (poseAt 0 0) (fun _ _ => true))) 1 = 1 / 20 ∧
      (pose2d ratLibm (current_pose (worldWith 0 (poseAt 0 0) (fun _ _ => true))))
        = ⟨0, 0, 0⟩ ∧
      (⟨0 - 1 / 20 * ratLibm.sin 0, 0 + 1 / 20 * ratLibm.cos 0, 0⟩ : Pose2D ℚ)
        = ⟨0, 1 / 20, 0⟩ ∧
      (∀ f, Effect.collisionQuery (⟨0, 1 / 20, 0⟩ : Pose2D ℚ) f ∉
        (onCycleUpdate shortConfig ratLibm started
          (worldWith 0 (poseAt 0 0) (fun _ _ => true))).effects) := by
  have e := onCycleUpdate_running shortConfig ratLibm started
    (worldWith 0 (poseAt 0 0) (fun _ _ => true)) (by decide) rfl
    (by rw [distance_started, started_eq]; norm_num)
    (lookahead_all_free _ _ _ _ (fun _ _ => rfl))
  rw [e, lookahead_short]
  refine ⟨?_, ?_, ?_, ?_, ?_⟩
  · simp [List.filter_cons, Effect.isCollisionQuery]
  · norm_num [sim_position_change, candidate, TwistStamped.init, started_eq, shortConfig]
  · simp [pose2d, current_pose, worldWith, poseAt, ratLibm]
  · norm_num [ratLibm]
  · intro f
    simp

omit [FloorRing α] in
/-- Entered with `fetch_data = false`, the loop of `isCollisionFree` makes
cached queries only. -/
theorem simulate_cached (cfg : Config α) (m : Libm α) (w : World α) (cmd_vel : TwistStamped α)
    (init_pose : Pose2D α) (diff_dist : α) (remaining : Nat) :
    ∀ (cycle_count : Nat),
      ∀ e ∈ (simulate cfg m w cmd_vel init_pose diff_dist remaining cycle_count false).2,
        e.isCachedQuery = true := by
  induction remaining with
  | zero => intro c e he; simp [simulate] at he
  | succ n ih =>
    intro c e he
    unfold simulate at he
    by_cases h1 : diff_dist - |sim_position_change cfg cmd_vel c| ≤ 0
    · simp [h1] at he
    · by_cases h2 : w.isCollisionFree (sim_pose m init_pose (sim_position_change cfg cmd_vel c))
          false = true
      · simp only [h1, if_false, h2, Bool.not_true] at he
        rcases List.mem_cons.mp he with he | he
        · rw [he]; rfl
        · exact ih _ e he
      · rw [Bool.not_eq_true] at h2
        simp only [h1, if_false, h2, Bool.not_false, if_true] at he
        rw [List.mem_singleton.mp he]; rfl

omit [FloorRing α] in
/-- The queries of the loop of `isCollisionFree`: none, or a first one made
with the `fetch_data` the loop was entered with, followed by cached ones. -/
theorem simulate_head (cfg : Config α) (m : Libm α) (w : World α) (cmd_vel : TwistStamped α)
    (init_pose : Pose2D α) (diff_dist : α) (remaining cycle_count : Nat) (fetch_data : Bool) :
    (simulate cfg m w cmd_vel init_pose diff_dist remaining cycle_count fetch_data).2 = [] ∨
      ∃ rest,
        (simulate cfg m w cmd_vel init_pose diff_dist remaining cycle_count fetch_data).2
          = Effect.collisionQuery
              (sim_pose m init_pose (sim_position_change cfg cmd_vel cycle_count)) fetch_data
            :: rest ∧
        ∀ e ∈ rest, e.isCachedQuery = true := by
  cases remaining with
  | zero => exact Or.inl rfl
  | succ n =>
    unfold simulate
    by_cases h1 : diff_dist - |sim_position_change cfg cmd_vel cycle_count| ≤ 0
    · left; simp [h1]
    · right
      by_cases h2 : w.isCollisionFree
          (sim_pose m init_pose (sim_position_change cfg cmd_vel cycle_count)) fetch_data = true
      · refine ⟨(simulate cfg m w cmd_vel init_pose diff_dist n (cycle_count + 1) false).2,
          by simp [h1, h2], simulate_cached _ _ _ _ _ _ _ _⟩
      · rw [Bool.not_eq_true] at h2
        exact ⟨[], by simp [h1, h2], by simp⟩

omit [LinearOrderedField α] [FloorRing α] in
/-- A list of cached queries holds no fresh query. -/
theorem filter_fresh_of_cached (l : List (Effect α)) (h : ∀ e ∈ l, e.isCachedQuery = true) :
    l.filter Effect.isFreshQuery = [] := by
  rw [List.filter_eq_nil_iff]
  intro e he
  have := h e he
  cases e with
  | collisionQuery p f => cases f <;> simp_all [Effect.isCachedQuery, Effect.isFreshQuery]
  | _ => simp [Effect.isFreshQuery]

/-- A call of `isCollisionFree` makes at most one fresh query. -/
theorem isCollisionFree_fresh_le_one (cfg : Config α) (m : Libm α) (self : Strafe α)
    (w : World α) (dist : α) (cmd_vel : TwistStamped α) (pose : Pose2D α) :
    ((isCollisionFree cfg m self w dist cmd_vel pose).2.filter Effect.isFreshQuery).length
      ≤ 1 := by
  unfold isCollisionFree
  rcases simulate_head cfg m w cmd_vel pose (|self.command_x_| - dist)
    (max_cycle_count cfg m).toNat 0 true with h | ⟨rest, h, hrest⟩
  · rw [h]; simp
  · rw [h]
    simp [List.filter_cons, Effect.isFreshQuery, filter_fresh_of_cached rest hrest]

/-- C18: within one call of `isCollisionFree`, whatever the inputs and the
collision checker, the first query (if any) asks for a fresh snapshot and every
later query of the call reuses it; hence a call, and therefore a step, asks for
at most one fresh snapshot. -/
theorem isCollisionFree_fetches_once (cfg : Config α) (m : Libm α) (self : Strafe α)
    (w : World α) :
    (∀ (dist : α) (cmd_vel : TwistStamped α) (pose : Pose2D α),
      ((isCollisionFree cfg m self w dist cmd_vel pose).2 = [] ∨
        ∃ p rest,
          (isCollisionFree cfg m self w dist cmd_vel pose).2
            = Effect.collisionQuery p true :: rest ∧
          ∀ e ∈ rest, e.isCachedQuery = true) ∧
      ((isCollisionFree cfg m self w dist cmd_vel pose).2.filter Effect.isFreshQuery).length
        ≤ 1) ∧
      ((onCycleUpdate cfg m self w).effects.filter Effect.isFreshQuery).length ≤ 1 := by
  constructor
  · intro dist cmd_vel pose
    refine ⟨?_, isCollisionFree_fresh_le_one cfg m self w dist cmd_vel pose⟩
    unfold isCollisionFree
    rcases simulate_head cfg m w cmd_vel pose (|self.command_x_| - dist)
      (max_cycle_count cfg m).toNat 0 true with h | ⟨rest, h, hrest⟩
    · exact Or.inl h
    · exact Or.inr ⟨_, rest, h, hrest⟩
  · have hl : ((lookahead cfg m self w).2.filter Effect.isFreshQuery).length ≤ 1 := by
      unfold lookahead
      exact isCollisionFree_fresh_le_one _ _ _ _ _ _ _
    rcases onCycleUpdate_cases cfg m self w with
      ⟨_, e⟩ | ⟨_, _, e⟩ | ⟨_, _, _, e⟩ | ⟨_, _, _, _, e⟩ | ⟨_, _, _, _, e⟩
    · rw [e]; simp [List.filter_cons, Effect.isFreshQuery]
    · rw [e]; simp [List.filter_cons, Effect.isFreshQuery]
    · rw [e]; simp [List.filter_cons, Effect.isFreshQuery]
    · rw [e]
      simpa [List.filter_cons, List.filter_append, Effect.isFreshQuery] using hl
    · rw [e]
      simpa [List.filter_cons, List.filter_append, Effect.isFreshQuery] using hl

/-- C19 (early exit): whatever the candidate velocity, the pose, the horizon
and the collision checker, if `remaining = |lateral_distance| - distance` is at
most the magnitude of the projected offset at pass 0 (which is zero, so that
the condition reads `remaining ≤ 0`), `isCollisionFree` returns true and makes
no collision query at all. -/
theorem isCollisionFree_early_exit (cfg : Config α) (m : Libm α) (self : Strafe α)
    (w : World α) (dist : α) (cmd_vel : TwistStamped α) (pose : Pose2D α)
    (h : |self.command_x_| - dist ≤ |sim_position_change cfg cmd_vel 0|) :
    sim_position_change cfg cmd_vel 0 = 0 ∧
      |self.command_x_| - dist ≤ 0 ∧
      isCollisionFree cfg m self w dist cmd_vel pose = (true, []) := by
  have h0 : sim_position_change cfg cmd_vel 0 = 0 := by
    simp [sim_position_change]
  rw [h0, abs_zero] at h
  refine ⟨h0, h, ?_⟩
  unfold isCollisionFree
  cases (max_cycle_count cfg m).toNat with
  | zero => rfl
  | succ n =>
    unfold simulate
    simp [h0, h]

/-- Witness of C19: the end-to-end command with the whole 2 m travelled and a
collision checker that reports not-free everywhere: the look-ahead reports
free without any query. -/
theorem isCollisionFree_early_exit_witness :
    (∀ p f, (worldWith 0 (poseAt 0 2) neverFree).isCollisionFree p f = false) ∧
      isCollisionFree demoConfig ratLibm started (worldWith 0 (poseAt 0 2) neverFree) 2
        (candidate started (worldWith 0 (poseAt 0 2) neverFree))
        (pose2d ratLibm (poseAt 0 2)) = (true, []) :=
  ⟨fun _ _ => rfl,
    (isCollisionFree_early_exit demoConfig ratLibm started (worldWith 0 (poseAt 0 2) neverFree) 2
      (candidate started (worldWith 0 (poseAt 0 2) neverFree)) (pose2d ratLibm (poseAt 0 2))
      (by rw [started_eq]; norm_num [sim_position_change])).2.2⟩

/-- C20: when a step reaches the simulator (no timeout, pose resolved, the
distance `hypot` returns for the displacement from the initial pose below the
magnitude of the lateral distance) and the horizon has at least one pass, the
early exit cannot trigger at pass 0 (the remaining distance is positive and the
offset of pass 0 is zero), so the first collision query of the step is made,
with a fresh snapshot, at the current pose of the robot itself: the position
`x`, `y` just looked up and the yaw of the orientation just looked up.  Hence a
step that returns RUNNING with a non-empty horizon has had the collision
checker report that pose free with a fresh snapshot. -/
theorem onCycleUpdate_checks_current_pose (cfg : Config α) (m : Libm α) (self : Strafe α)
    (w : World α)
    (ht : ¬ (self.end_time_ < w.now ∧ 0 < self.command_time_allowance_))
    (hp : poseAvailable w = true)
    (hd : m.hypot (self.initial_pose_.pose.position.x - (current_pose w).pose.position.x)
        (self.initial_pose_.pose.position.y - (current_pose w).pose.position.y)
      < |self.command_x_|)
    (hh : 0 < max_cycle_count cfg m) :
    self.command_speed_ * (((0 : Nat) : α) / cfg.cycle_frequency_) = 0 ∧
      ¬ (|self.command_x_|
        - m.hypot (self.initial_pose_.pose.position.x - (current_pose w).pose.position.x)
            (self.initial_pose_.pose.position.y - (current_pose w).pose.position.y)
        - |self.command_speed_ * (((0 : Nat) : α) / cfg.cycle_frequency_)| ≤ 0) ∧
      (∃ rest,
        (onCycleUpdate cfg m self w).effects.filter Effect.isCollisionQuery
          = Effect.collisionQuery
              { x := (current_pose w).pose.position.x
                y := (current_pose w).pose.position.y
                theta := m.getYaw (current_pose w).pose.orientation } true :: rest) ∧
      ((onCycleUpdate cfg m self w).result.status = Status.RUNNING →
        w.isCollisionFree
          { x := (current_pose w).pose.position.x
            y := (current_pose w).pose.position.y
            theta := m.getYaw (current_pose w).pose.orientation } true = true) := by
  have hd2 : distance m self (current_pose w) < |self.command_x_| := hd
  have hoff : self.command_speed_ * (((0 : Nat) : α) / cfg.cycle_frequency_) = 0 := by
    simp
  have h0 : ∀ c : TwistStamped α, sim_position_change cfg c 0 = 0 := by
    intro c
    simp [sim_position_change]
  have hexit : ¬ (|self.command_x_| - distance m self (current_pose w) ≤ 0) :=
    not_le.mpr (sub_pos.mpr hd2)
  obtain ⟨n, hn⟩ : ∃ n, (max_cycle_count cfg m).toNat = n + 1 :=
    Nat.exists_eq_succ_of_ne_zero (by omega)
  -- the look-ahead of the step, unfolded at its first pass
  have hfirst : (∃ rest, (lookahead cfg m self w).2
        = Effect.collisionQuery
            { x := (current_pose w).pose.position.x
              y := (current_pose w).pose.position.y
              theta := m.getYaw (current_pose w).pose.orientation } true :: rest) ∧
      ((lookahead cfg m self w).1 = true →
        w.isCollisionFree
          { x := (current_pose w).pose.position.x
            y := (current_pose w).pose.position.y
            theta := m.getYaw (current_pose w).pose.orientation } true = true) := by
    unfold lookahead isCollisionFree
    rw [hn]
    unfold simulate
    have hpose0 : sim_pose m (pose2d m (current_pose w)) 0 =
        { x := (current_pose w).pose.position.x
          y := (current_pose w).pose.position.y
          theta := m.getYaw (current_pose w).pose.orientation } := by
      simp [sim_pose, pose2d]
    simp only [h0, hpose0]
    by_cases h2 : w.isCollisionFree
        { x := (current_pose w).pose.position.x
          y := (current_pose w).pose.position.y
          theta := m.getYaw (current_pose w).pose.orientation } true = true
    · simp [hexit, h2, abs_zero]
    · rw [Bool.not_eq_true] at h2
      simp [hexit, h2, abs_zero]
  have hq : (lookahead cfg m self w).2.filter Effect.isCollisionQuery
      = (lookahead cfg m self w).2 :=
    List.filter_eq_self.mpr (lookahead_effects cfg m self w)
  refine ⟨hoff, ?_, ?_, ?_⟩
  · rw [hoff, abs_zero, sub_zero]
    exact hexit
  · obtain ⟨rest, hrest⟩ := hfirst.1
    rcases onCycleUpdate_cases cfg m self w with
      ⟨h, _⟩ | ⟨_, hp2, _⟩ | ⟨_, _, hd3, _⟩ | ⟨_, _, _, _, e⟩ | ⟨_, _, _, _, e⟩
    · exact absurd h ht
    · rw [hp] at hp2; cases hp2
    · exact absurd hd2 (not_lt.mpr hd3)
    · rw [e]
      refine ⟨rest, ?_⟩
      simp only [List.filter_append, hq]
      rw [hrest]
      simp [List.filter_cons, Effect.isCollisionQuery]
    · rw [e]
      refine ⟨rest, ?_⟩
      simp only [List.filter_append, hq]
      rw [hrest]
      simp [List.filter_cons, Effect.isCollisionQuery]
  · intro hr
    exact hfirst.2 (onCycleUpdate_running_inv cfg m self w hr).2.2.2.1

/-- Witness of C20: the end-to-end command, the robot 0.5 m from its initial
pose and turned (yaw value 24/7 from the stand-in `getYaw`), a collision
checker that is free everywhere, 10 Hz and 2 s look-ahead (20 passes): the step
returns RUNNING and its first collision query is made at `(0, 1/2, 24/7)` with
a fresh snapshot. -/
theorem onCycleUpdate_checks_current_pose_witness :
    (0 : Int) < max_cycle_count demoConfig ratLibm ∧
      (onCycleUpdate demoConfig ratLibm started
        (worldWith 1000000000 poseTurned (fun _ _ => true))).result.status = Status.RUNNING ∧
      (∃ rest,
        (onCycleUpdate demoConfig ratLibm started
          (worldWith 1000000000 poseTurned (fun _ _ => true))).effects.filter
            Effect.isCollisionQuery
          = Effect.collisionQuery ⟨0, 1 / 2, 24 / 7⟩ true :: rest) ∧
      (worldWith 1000000000 poseTurned (fun _ _ => true)).isCollisionFree
        ⟨0, 1 / 2, 24 / 7⟩ true = true := by
  have hd : ratLibm.hypot
      (started.initial_pose_.pose.position.x
        - (current_pose (worldWith 1000000000 poseTurned (fun _ _ => true))).pose.position.x)
      (started.initial_pose_.pose.position.y
        - (current_pose (worldWith 1000000000 poseTurned (fun _ _ => true))).pose.position.y)
      < |started.command_x_| := by
    simp only [current_pose, worldWith, poseTurned, poseAt, started_eq, sub_self]
    rw [ratLibm_hypot_zero_left]
    norm_num [abs_lt]
  have hrun : (onCycleUpdate demoConfig ratLibm started
      (worldWith 1000000000 poseTurned (fun _ _ => true))).result.status = Status.RUNNING := by
    rw [onCycleUpdate_running demoConfig ratLibm started
      (worldWith 1000000000 poseTurned (fun _ _ => true)) (by decide) rfl hd
      (lookahead_all_free _ _ _ _ (fun _ _ => rfl))]
  have hmax : (0 : Int) < max_cycle_count demoConfig ratLibm := by
    rw [max_cycle_count_demo]; decide
  have hyaw : ratLibm.getYaw
      (current_pose (worldWith 1000000000 poseTurned (fun _ _ => true))).pose.orientation
      = 24 / 7 := by
    norm_num [ratLibm, current_pose, worldWith, poseTurned]
  have h := onCycleUpdate_checks_current_pose demoConfig ratLibm started
    (worldWith 1000000000 poseTurned (fun _ _ => true)) (by decide) rfl hd hmax
  rw [hyaw] at h
  exact ⟨hmax, hrun, h.2.2.1, h.2.2.2 hrun⟩

end Strafe

end nav2_behaviors
